import Mathlib

/-!
# DualSourceMixer: the two-channel audio synchronizer of SimpleScreenRecorder

Shallow embedding of `src/AV/Input/DualSourceMixer.h` and
`src/AV/Input/DualSourceMixer.cpp`.

* A `std::vector<int16_t>` is a `List Int`; the 16-bit samples are only ever
  copied, never computed with, so their width plays no role.
* Every `unsigned int` of the source is a `Nat`, reduced with `toU32` at the
  places where the source assigns or computes a 32-bit value:
  `unsigned int count = v.size()` (a `size_t`, 64 bits wide on the platforms
  the recorder is built for), `count * 2`, `i * 2 + 1`, `++i`.
* `operator[]` on a vector is a checked access returning `Option`; `none`
  stands for the undefined behaviour of an access outside the vector.
* The pointer `data` handed to a sink is a function from the sample index to
  the sample.
* The mixer thread is modelled one loop iteration at a time.  The two mutexes
  are not modelled: an iteration is split into the snapshot taken under the
  first lock pair and the action performed under the second one, so that the
  two can be evaluated on different buffer contents.
* The clock `hrt_time_micro()` is a parameter of the iteration.
* The constructor and the destructor are modelled as the sequence of their
  calls on the inputs, the sinks and the thread; each statement of the `try`
  block of the constructor may throw.
* The locking of a path is the list of its `std::lock_guard` scopes, each with
  the mutexes it locks in order.
* `PageDone::AddRecording` of `src/GUI/PageDone.cpp` works on the list of
  recording files and on the items of the list widget; a `QString` is a
  `String`.

The definitions come first, the lemmas and the theorems on the claims after
them.
-/

namespace DualSourceMixer

/-! ## Data model -/

/-- Sample formats of the audio interface (the subset of `AVSampleFormat` used
by the recorder). -/
inductive AVSampleFormat where
  | AV_SAMPLE_FMT_U8
  | AV_SAMPLE_FMT_S16
  | AV_SAMPLE_FMT_S32
  | AV_SAMPLE_FMT_FLT
  deriving DecidableEq, Repr

/-- The struct `ChannelBuffer` (without its mutex). -/
structure ChannelBuffer where
  samples : List Int
  started : Bool
  hole : Bool
  deriving DecidableEq, Repr

/-- The constructor `ChannelBuffer() : started(false), hole(false) {}`. -/
def ChannelBuffer.new : ChannelBuffer :=
  { samples := [], started := false, hole := false }

/-- A call received by the downstream `AudioSink`s of the mixer. -/
inductive AudioEvent where
  | PushAudioSamples (channels sample_rate : Nat) (format : AVSampleFormat)
      (sample_count : Nat) (data : List Int) (timestamp : Int)
  | PushAudioHole
  deriving DecidableEq, Repr

/-- The part of a `DualSourceMixer` that the mixer thread and the two channel
sinks work on: the sample rate, the two channel buffers, and the vector
`output` that `MixerThread` declares outside its loop. -/
structure Mixer where
  m_sample_rate : Nat
  m_buffer_left : ChannelBuffer
  m_buffer_right : ChannelBuffer
  output : List Int
  deriving DecidableEq, Repr

/-- Conversion to `unsigned int`. -/
def toU32 (n : Nat) : Nat := n % 4294967296

/-- The block of `n` samples that starts at the pointer `data`:
`data[0], ..., data[n-1]`. -/
def readSamples (data : Nat → Int) (n : Nat) : List Int :=
  (List.range n).map data

/-! ## ChannelSink -/

/-- The method `ChannelSink::ReadAudioSamples`, acting on the buffer the sink
refers to. -/
def ChannelSink.ReadAudioSamples (m_buffer : ChannelBuffer) (channels sample_rate : Nat)
    (format : AVSampleFormat) (sample_count : Nat) (data : Nat → Int) (timestamp : Int) :
    ChannelBuffer :=
  let _ := sample_rate
  let _ := format
  let _ := timestamp
  if channels ≠ 1 ∨ sample_count = 0 then
    m_buffer
  else
    { m_buffer with
      samples := m_buffer.samples ++ readSamples data sample_count
      started := true }

/-- The method `ChannelSink::ReadAudioHole`. -/
def ChannelSink.ReadAudioHole (m_buffer : ChannelBuffer) : ChannelBuffer :=
  { m_buffer with hole := true }

/-! ## MixerThread -/

/-- The call `std::vector::resize(n)`: keeps the first `n` elements and pads
with zeros. -/
def resize (v : List Int) (n : Nat) : List Int :=
  v.take n ++ List.replicate (n - v.length) 0

/-- The assignment `v[i] = x`. -/
def store (v : List Int) (i : Nat) (x : Int) : Option (List Int) :=
  if i < v.length then some (v.set i x) else none

/-- The loop
`for(unsigned int i = ...; i < count; ++i) { output[i*2+0] = l; output[i*2+1] = r; }`
where `l` and `r` read the left and the right sample of pair `i`.  The first
argument is the number of iterations still to run, `count - i`: the loop
starts at `i = 0` with `count < 2^32`, so it runs exactly `count` times. -/
def fillOutput (l r : Nat → Option Int) : Nat → Nat → List Int → Option (List Int)
  | 0, _, output => some output
  | n + 1, i, output => do
    let x ← l i
    let output ← store output (toU32 (toU32 (i * 2) + 0)) x
    let y ← r i
    let output ← store output (toU32 (toU32 (i * 2) + 1)) y
    fillOutput l r n (toU32 (i + 1)) output

/-- The values read under the first lock pair of an iteration. -/
structure Snapshot where
  left_count : Nat
  right_count : Nat
  left_hole : Bool
  right_hole : Bool
  left_started : Bool
  right_started : Bool
  deriving DecidableEq, Repr

/-- The first block of the loop body: both locks held, sizes and flags read. -/
def takeSnapshot (m : Mixer) : Snapshot :=
  { left_count := toU32 m.m_buffer_left.samples.length
    right_count := toU32 m.m_buffer_right.samples.length
    left_hole := m.m_buffer_left.hole
    right_hole := m.m_buffer_right.hole
    left_started := m.m_buffer_left.started
    right_started := m.m_buffer_right.started }

/-- The block "output left with silence on right" (it occurs twice in the
source, in the warm-up branch and in the `min_samples == 0` branch). -/
def outputLeftWithSilence (timestamp : Int) (m : Mixer) : Option (Mixer × List AudioEvent) :=
  let count := toU32 m.m_buffer_left.samples.length
  if count > 0 then do
    let output ← fillOutput (fun i => m.m_buffer_left.samples[i]?) (fun _ => some 0)
      count 0 (resize m.output (toU32 (count * 2)))
    some ({ m with
            m_buffer_left := { m.m_buffer_left with samples := [] }
            output := output },
          [AudioEvent.PushAudioSamples 2 m.m_sample_rate AVSampleFormat.AV_SAMPLE_FMT_S16
            count output timestamp])
  else
    some (m, [])

/-- The block "output right with silence on left" (it occurs twice as well). -/
def outputRightWithSilence (timestamp : Int) (m : Mixer) : Option (Mixer × List AudioEvent) :=
  let count := toU32 m.m_buffer_right.samples.length
  if count > 0 then do
    let output ← fillOutput (fun _ => some 0) (fun i => m.m_buffer_right.samples[i]?)
      count 0 (resize m.output (toU32 (count * 2)))
    some ({ m with
            m_buffer_right := { m.m_buffer_right with samples := [] }
            output := output },
          [AudioEvent.PushAudioSamples 2 m.m_sample_rate AVSampleFormat.AV_SAMPLE_FMT_S16
            count output timestamp])
  else
    some (m, [])

/-- The last block of the loop body: "interleave left and right into stereo". -/
def interleaveBoth (timestamp : Int) (m : Mixer) : Option (Mixer × List AudioEvent) :=
  let min_samples :=
    min (toU32 m.m_buffer_left.samples.length) (toU32 m.m_buffer_right.samples.length)
  if min_samples = 0 then
    some (m, [])
  else do
    let output ← fillOutput (fun i => m.m_buffer_left.samples[i]?)
      (fun i => m.m_buffer_right.samples[i]?) min_samples 0
      (resize m.output (toU32 (min_samples * 2)))
    some ({ m with
            m_buffer_left :=
              { m.m_buffer_left with samples := m.m_buffer_left.samples.drop min_samples }
            m_buffer_right :=
              { m.m_buffer_right with samples := m.m_buffer_right.samples.drop min_samples }
            output := output },
          [AudioEvent.PushAudioSamples 2 m.m_sample_rate AVSampleFormat.AV_SAMPLE_FMT_S16
            min_samples output timestamp])

/-- The loop body of `MixerThread` after the snapshot `s`, on the mixer `m` as
it is when the second lock is taken.  The result is the mixer afterwards and
the downstream calls made, in order; `none` is undefined behaviour. -/
def mixerAction (s : Snapshot) (timestamp : Int) (m : Mixer) :
    Option (Mixer × List AudioEvent) :=
  let silence_threshold := m.m_sample_rate / 10
  if s.left_hole || s.right_hole then
    some ({ m with
            m_buffer_left := { samples := [], started := false, hole := false }
            m_buffer_right := { samples := [], started := false, hole := false } },
          [AudioEvent.PushAudioHole])
  else if !s.left_started || !s.right_started then
    if s.left_started && s.left_count > silence_threshold then
      outputLeftWithSilence timestamp m
    else if s.right_started && s.right_count > silence_threshold then
      outputRightWithSilence timestamp m
    else
      some (m, [])
  else
    let min_samples := min s.left_count s.right_count
    if min_samples = 0 then
      if s.left_count > silence_threshold then
        outputLeftWithSilence timestamp m
      else if s.right_count > silence_threshold then
        outputRightWithSilence timestamp m
      else
        some (m, [])
    else
      interleaveBoth timestamp m

/-- One iteration of the loop of `MixerThread` with no sink call between the
snapshot and the action. -/
def MixerIteration (timestamp : Int) (m : Mixer) : Option (Mixer × List AudioEvent) :=
  mixerAction (takeSnapshot m) timestamp m

/-! ## Runs: sink calls and mixer iterations in sequence -/

/-- The block of the loop body that an iteration executes. -/
inductive Branch where
  | gap
  | leftOnly
  | rightOnly
  | both
  | idle
  deriving DecidableEq, Repr

/-- The conditions of the loop body, in source order, as a choice of block:
`gap` is the hole block, `leftOnly` and `rightOnly` the two silence blocks
(of the warm-up branch or of the `min_samples == 0` branch), `both` the
interleave block, `idle` a bare `continue`. -/
def selectBranch (s : Snapshot) (silence_threshold : Nat) : Branch :=
  if s.left_hole || s.right_hole then Branch.gap
  else if !s.left_started || !s.right_started then
    if s.left_started && s.left_count > silence_threshold then Branch.leftOnly
    else if s.right_started && s.right_count > silence_threshold then Branch.rightOnly
    else Branch.idle
  else if min s.left_count s.right_count = 0 then
    if s.left_count > silence_threshold then Branch.leftOnly
    else if s.right_count > silence_threshold then Branch.rightOnly
    else Branch.idle
  else Branch.both

/-- One step of a run: a call of one of the two channel sinks by its producer,
or one iteration of the mixer loop. -/
inductive Op where
  | leftSamples (channels sample_rate : Nat) (format : AVSampleFormat) (sample_count : Nat)
      (data : Nat → Int) (timestamp : Int)
  | rightSamples (channels sample_rate : Nat) (format : AVSampleFormat) (sample_count : Nat)
      (data : Nat → Int) (timestamp : Int)
  | leftHole
  | rightHole
  | mix (timestamp : Int)

/-- A sink call applied to the buffer of its side; a `mix` is not a sink call
and leaves the mixer as it is. -/
def sinkCall (m : Mixer) : Op → Mixer
  | Op.leftSamples c r f n d t =>
      { m with m_buffer_left := ChannelSink.ReadAudioSamples m.m_buffer_left c r f n d t }
  | Op.rightSamples c r f n d t =>
      { m with m_buffer_right := ChannelSink.ReadAudioSamples m.m_buffer_right c r f n d t }
  | Op.leftHole => { m with m_buffer_left := ChannelSink.ReadAudioHole m.m_buffer_left }
  | Op.rightHole => { m with m_buffer_right := ChannelSink.ReadAudioHole m.m_buffer_right }
  | Op.mix _ => m

/-- Runs the steps in order.  The result is the final mixer and, for every
mixer iteration of the run, the block it executed and the downstream calls it
made. -/
def run : List Op → Mixer → Option (Mixer × List (Branch × List AudioEvent))
  | [], m => some (m, [])
  | Op.mix timestamp :: ops, m => do
    let r ← MixerIteration timestamp m
    let rest ← run ops r.1
    some (rest.1, (selectBranch (takeSnapshot m) (m.m_sample_rate / 10), r.2) :: rest.2)
  | op :: ops, m => run ops (sinkCall m op)

/-- A step that is not a hole notification. -/
def Op.gapFree : Op → Bool
  | Op.leftHole => false
  | Op.rightHole => false
  | _ => true

/-- The samples that the steps append to the left buffer, in order. -/
def pushedLeft : List Op → List Int
  | [] => []
  | Op.leftSamples c _ _ n d _ :: ops =>
      (if c ≠ 1 ∨ n = 0 then [] else readSamples d n) ++ pushedLeft ops
  | _ :: ops => pushedLeft ops

/-- The samples that the steps append to the right buffer, in order. -/
def pushedRight : List Op → List Int
  | [] => []
  | Op.rightSamples c _ _ n d _ :: ops =>
      (if c ≠ 1 ∨ n = 0 then [] else readSamples d n) ++ pushedRight ops
  | _ :: ops => pushedRight ops

/-- Whether every mixer iteration that a run reaches finds fewer than 2^31
samples in each of the two buffers.  Nothing is asked of the steps behind an
iteration that does not return. -/
def boundedRun : List Op → Mixer → Bool
  | [], _ => true
  | Op.mix timestamp :: ops, m =>
      decide (m.m_buffer_left.samples.length < 2147483648) &&
      decide (m.m_buffer_right.samples.length < 2147483648) &&
      match MixerIteration timestamp m with
      | some r => boundedRun ops r.1
      | none => true
  | op :: ops, m => boundedRun ops (sinkCall m op)

/-! ## Reading frames -/

/-- The sequence `[l0, r0, l1, r1, ...]` of as many pairs as both lists have. -/
def interleave : List Int → List Int → List Int
  | l :: ls, r :: rs => l :: r :: interleave ls rs
  | _, _ => []

/-- The sequence `[f i, g i, f (i+1), g (i+1), ...]` of `n` pairs. -/
def pairsFrom (f g : Nat → Int) : Nat → Nat → List Int
  | 0, _ => []
  | n + 1, i => f i :: g i :: pairsFrom f g n (i + 1)

/-- The left samples of interleaved stereo data. -/
def leftChannel : List Int → List Int
  | l :: _ :: rest => l :: leftChannel rest
  | _ => []

/-- The right samples of interleaved stereo data. -/
def rightChannel : List Int → List Int
  | _ :: r :: rest => r :: rightChannel rest
  | _ => []

/-- The sample data of all frames among the calls, concatenated. -/
def frameData : List AudioEvent → List Int
  | [] => []
  | AudioEvent.PushAudioSamples _ _ _ _ data _ :: es => data ++ frameData es
  | AudioEvent.PushAudioHole :: es => frameData es

/-- All downstream calls of a run, in order. -/
def events : List (Branch × List AudioEvent) → List AudioEvent
  | [] => []
  | r :: rs => r.2 ++ events rs

/-- The samples taken from the left buffer that an iteration sends out: the
left channel of its frame, unless the block it ran was `rightOnly`, whose left
channel is silence. -/
def realLeftOf (r : Branch × List AudioEvent) : List Int :=
  match r.1 with
  | Branch.leftOnly => leftChannel (frameData r.2)
  | Branch.both => leftChannel (frameData r.2)
  | _ => []

/-- The samples taken from the right buffer that an iteration sends out. -/
def realRightOf (r : Branch × List AudioEvent) : List Int :=
  match r.1 with
  | Branch.rightOnly => rightChannel (frameData r.2)
  | Branch.both => rightChannel (frameData r.2)
  | _ => []

/-- The left-buffer samples sent out over a run. -/
def realLeft : List (Branch × List AudioEvent) → List Int
  | [] => []
  | r :: rs => realLeftOf r ++ realLeft rs

/-- The right-buffer samples sent out over a run. -/
def realRight : List (Branch × List AudioEvent) → List Int
  | [] => []
  | r :: rs => realRightOf r ++ realRight rs

/-! ## Construction -/

/-- The two channels. -/
inductive Side where
  | left
  | right
  deriving DecidableEq, Repr

/-- The calls that the constructor and the destructor make on their
collaborators, once they have returned: `new PulseAudioInput(source, sample_rate, 1)`,
the destructor of a `PulseAudioInput` run by `unique_ptr::reset`,
`ConnectAudioSource` of a channel sink with an input or with `NULL`, the
construction of the `std::thread`, the store `m_should_stop = true` that a
running mixer thread reads, and `m_thread.join()`. -/
inductive Effect where
  | newInput (side : Side)
  | deleteInput (side : Side)
  | connect (sink : Side) (source : Option Side)
  | startThread
  | signalStop
  | joinThread
  deriving DecidableEq, Repr

/-- The statements of the `try` block of the constructor that can throw. -/
inductive Step where
  | newLeft
  | newRight
  | connectLeft
  | connectRight
  | startThread
  deriving DecidableEq, Repr

/-- The members that the constructor works on: whether each `unique_ptr` owns
an input, the input each channel sink is connected to, whether `m_thread` is
joinable, the stop flag once assigned, and the calls made so far. -/
structure Lifecycle where
  m_input_left : Bool
  m_input_right : Bool
  m_sink_left : Option Side
  m_sink_right : Option Side
  m_thread : Bool
  m_should_stop : Option Bool
  trace : List Effect
  deriving DecidableEq, Repr

/-- The members after the member initialiser list. -/
def Lifecycle.init : Lifecycle :=
  { m_input_left := false, m_input_right := false, m_sink_left := none, m_sink_right := none,
    m_thread := false, m_should_stop := none, trace := [] }

/-- Modelled from the spec: the constructor of `PulseAudioInput` is not among
the sources; by section 4.3 it builds a producer bound to a named source at the
configured rate, or fails.  This is the call
`m_input_left.reset(new PulseAudioInput(source_left, sample_rate, 1))` or its
right counterpart, when `new` returns. -/
def Lifecycle.resetNew (s : Lifecycle) : Side → Lifecycle
  | Side.left => { s with m_input_left := true, trace := s.trace ++ [Effect.newInput Side.left] }
  | Side.right =>
      { s with m_input_right := true, trace := s.trace ++ [Effect.newInput Side.right] }

/-- The call `m_input_left.reset()` or its right counterpart: destroys the
input if one is owned. -/
def Lifecycle.reset (s : Lifecycle) : Side → Lifecycle
  | Side.left =>
      if s.m_input_left then
        { s with m_input_left := false, trace := s.trace ++ [Effect.deleteInput Side.left] }
      else s
  | Side.right =>
      if s.m_input_right then
        { s with m_input_right := false, trace := s.trace ++ [Effect.deleteInput Side.right] }
      else s

/-- The pointer `m_input_left.get()` or its right counterpart. -/
def Lifecycle.get (s : Lifecycle) : Side → Option Side
  | Side.left => if s.m_input_left then some Side.left else none
  | Side.right => if s.m_input_right then some Side.right else none

/-- Modelled from the spec: `ConnectAudioSource` is declared in `SourceSink.h`,
which is not among the sources; by section 6 it attaches the sink to the given
producer, or detaches it when given none.  This is the call
`m_sink_left.ConnectAudioSource(source)` or its right counterpart; `none` is
`NULL`. -/
def Lifecycle.ConnectAudioSource (s : Lifecycle) (sink : Side) (source : Option Side) :
    Lifecycle :=
  match sink with
  | Side.left => { s with m_sink_left := source, trace := s.trace ++ [Effect.connect sink source] }
  | Side.right =>
      { s with m_sink_right := source, trace := s.trace ++ [Effect.connect sink source] }

/-- A statement that can throw.  The parameter `throws` tells which exception
each statement of the `try` block throws, if any; a statement that throws has
no effect on the members. -/
def attempt (throws : Step → Option Nat) (step : Step) (effect : Lifecycle → Lifecycle)
    (s : Lifecycle) : Except (Nat × Lifecycle) Lifecycle :=
  match throws step with
  | some e => Except.error (e, s)
  | none => Except.ok (effect s)

/-- The `try` block of the constructor.  An error carries the exception and
the members at the throw. -/
def tryBlock (throws : Step → Option Nat) (s : Lifecycle) : Except (Nat × Lifecycle) Lifecycle := do
  let s ← attempt throws Step.newLeft (fun s => s.resetNew Side.left) s
  let s ← attempt throws Step.newRight (fun s => s.resetNew Side.right) s
  let s ← attempt throws Step.connectLeft
    (fun s => s.ConnectAudioSource Side.left (s.get Side.left)) s
  let s ← attempt throws Step.connectRight
    (fun s => s.ConnectAudioSource Side.right (s.get Side.right)) s
  let s := { s with m_should_stop := some false }
  attempt throws Step.startThread
    (fun s => { s with m_thread := true, trace := s.trace ++ [Effect.startThread] }) s

/-- The `catch(...)` block of the constructor, before its `throw;`. -/
def catchBlock (s : Lifecycle) : Lifecycle :=
  let s := s.ConnectAudioSource Side.left none
  let s := s.ConnectAudioSource Side.right none
  let s := s.reset Side.left
  s.reset Side.right

/-- The constructor `DualSourceMixer::DualSourceMixer`: the members when it
returns or throws, and the exception it throws, if any. -/
def construct (throws : Step → Option Nat) : Lifecycle × Option Nat :=
  match tryBlock throws Lifecycle.init with
  | Except.ok s => (s, none)
  | Except.error (e, s) => (catchBlock s, some e)

/-- The exception of the first statement of the `try` block that throws. -/
def firstThrow (throws : Step → Option Nat) : Option Nat :=
  (throws Step.newLeft).orElse fun _ =>
  (throws Step.newRight).orElse fun _ =>
  (throws Step.connectLeft).orElse fun _ =>
  (throws Step.connectRight).orElse fun _ =>
  throws Step.startThread

/-- Whether an input of this side has been created and not destroyed. -/
def liveInput (trace : List Effect) (side : Side) : Bool :=
  trace.count (Effect.deleteInput side) < trace.count (Effect.newInput side)

/-- Only the creation of the right input fails, with exception 42. -/
def rightFails : Step → Option Nat
  | Step.newRight => some 42
  | _ => none

/-- The destructor `DualSourceMixer::~DualSourceMixer`. -/
def destruct (s : Lifecycle) : Lifecycle :=
  let s :=
    if s.m_thread then
      { s with
        m_should_stop := some true
        m_thread := false
        trace := s.trace ++ [Effect.signalStop, Effect.joinThread] }
    else s
  let s := s.ConnectAudioSource Side.left none
  let s := s.ConnectAudioSource Side.right none
  let s := s.reset Side.left
  s.reset Side.right

/-- The input a sink is connected to after the calls of a trace: the source of
its last `ConnectAudioSource`. -/
def connectedTo (trace : List Effect) (side : Side) : Option Side :=
  trace.foldl (fun source e =>
    match e with
    | Effect.connect sink source2 => if sink = side then source2 else source
    | _ => source) none

/-- Whether the mixer thread has been started and not joined. -/
def threadRunning (trace : List Effect) : Bool :=
  trace.count Effect.joinThread < trace.count Effect.startThread

/-- What must hold after every call of a trace: a connected sink is connected
to an input that is alive, and the mixer thread runs only while both sinks are
connected. -/
def safeAfter (trace : List Effect) : Bool :=
  (connectedTo trace Side.left).all (liveInput trace) &&
  (connectedTo trace Side.right).all (liveInput trace) &&
  (!threadRunning trace ||
    (connectedTo trace Side.left == some Side.left &&
     connectedTo trace Side.right == some Side.right))

/-- No statement of the constructor throws. -/
def noThrow : Step → Option Nat := fun _ => none

/-! ## Locks -/

/-- The critical sections of `ChannelSink::ReadAudioSamples` of the sink of one
side.  A critical section is the list of the mutexes locked by the
`std::lock_guard`s of one scope, in locking order; they are unlocked in the
reverse order at the end of the scope. -/
def ChannelSink.ReadAudioSamplesLocks (side : Side) (channels sample_count : Nat) :
    List (List Side) :=
  if channels ≠ 1 ∨ sample_count = 0 then [] else [[side]]

/-- The critical sections of `ChannelSink::ReadAudioHole`. -/
def ChannelSink.ReadAudioHoleLocks (side : Side) : List (List Side) :=
  [[side]]

/-- The critical sections of one iteration of `MixerThread`: the snapshot
scope, then the scope of the block that the snapshot selects. -/
def mixerLocks (s : Snapshot) (silence_threshold : Nat) : List (List Side) :=
  [Side.left, Side.right] ::
    match selectBranch s silence_threshold with
    | Branch.gap => [[Side.left, Side.right]]
    | Branch.leftOnly => [[Side.left]]
    | Branch.rightOnly => [[Side.right]]
    | Branch.both => [[Side.left, Side.right]]
    | Branch.idle => []

/-! ## Reachable states -/

/-- The mixer when the thread starts: both buffers as constructed, `output`
empty. -/
def Mixer.init (sample_rate : Nat) : Mixer :=
  { m_sample_rate := sample_rate
    m_buffer_left := ChannelBuffer.new
    m_buffer_right := ChannelBuffer.new
    output := [] }

/-- A state that some sequence of sink calls and mixer iterations reaches from
the initial one. -/
def Reachable (m : Mixer) : Prop :=
  ∃ ops tr, run ops (Mixer.init m.m_sample_rate) = some (m, tr)

/-- A buffer that has not started is empty. -/
def ChannelBuffer.startedInv (b : ChannelBuffer) : Prop :=
  b.started = false → b.samples = []

/-- Both buffers satisfy the started invariant. -/
def Mixer.startedInv (m : Mixer) : Prop :=
  m.m_buffer_left.startedInv ∧ m.m_buffer_right.startedInv

/-- At 48 kHz from the initial state: 2^32 - 1 samples and then six more reach
the left sink. -/
def overlongDelivery : List Op :=
  [Op.leftSamples 1 48000 AVSampleFormat.AV_SAMPLE_FMT_S16 4294967295 (fun _ => 0) 0,
   Op.leftSamples 1 48000 AVSampleFormat.AV_SAMPLE_FMT_S16 6 (fun _ => 0) 0]

/-- At 48 kHz from the initial state: 2^32 - 1 samples and then two more reach
the left sink, three samples reach the right sink. -/
def overlongPair : List Op :=
  [Op.leftSamples 1 48000 AVSampleFormat.AV_SAMPLE_FMT_S16 4294967295 (fun _ => 0) 0,
   Op.leftSamples 1 48000 AVSampleFormat.AV_SAMPLE_FMT_S16 2 (fun _ => 0) 0,
   Op.rightSamples 1 48000 AVSampleFormat.AV_SAMPLE_FMT_S16 3 (fun _ => 0) 0]

/-! ## PageDone -/

/-- An item of the list widget: its text, and the file name stored as its
`Qt::UserRole` data and as its tool tip. -/
structure RecordingItem where
  text : String
  file : String
  deriving DecidableEq, Repr

/-- The members of `PageDone` that `AddRecording` works on: the list of
recording files, the items of `m_listwidget_recordings`, and the row of its
current item. -/
structure PageDone where
  m_recording_files : List String
  items : List RecordingItem
  currentRow : Option Nat
  deriving DecidableEq, Repr

/-- The page as constructed: no recording, no item. -/
def PageDone.new : PageDone :=
  { m_recording_files := [], items := [], currentRow := none }

/-- The method `PageDone::AddRecording`.  The parameter `fileName` is
`QFileInfo::fileName`; `QString::isEmpty` is equality with the empty string. -/
def PageDone.AddRecording (fileName : String → String) (p : PageDone) (file : String) :
    PageDone :=
  if file = "" then
    p
  else if p.m_recording_files.contains file then
    p
  else
    { m_recording_files := p.m_recording_files ++ [file]
      items := p.items ++ [{ text := fileName file, file := file }]
      currentRow := some p.items.length }

/-- A sequence of `AddRecording` calls, in order. -/
def PageDone.addAll (fileName : String → String) (p : PageDone) (files : List String) :
    PageDone :=
  files.foldl (PageDone.AddRecording fileName) p

/-! ## Concrete mixers -/

/-- Builds a mixer with no hole pending and an empty `output` vector. -/
def Mixer.mk0 (sample_rate : Nat) (left : List Int) (left_started : Bool) (right : List Int)
    (right_started : Bool) : Mixer :=
  { m_sample_rate := sample_rate
    m_buffer_left := { samples := left, started := left_started, hole := false }
    m_buffer_right := { samples := right, started := right_started, hole := false }
    output := [] }

/-- At 48 kHz, both sides started, the left buffer holds 2^32 + 1 samples and
the right buffer three. -/
def overlongBoth : Mixer :=
  Mixer.mk0 48000 (List.replicate 4294967297 0) true [7, 8, 9] true

/-- At 48 kHz, only the left side started, its buffer holds 2^32 + 4801
samples. -/
def overlongWarmup : Mixer :=
  Mixer.mk0 48000 (List.replicate 4294972097 0) true [] false

/-- At 48 kHz, both sides started, the right buffer is empty and the left
buffer holds 2^32 + 4801 samples. -/
def overlongStarved : Mixer :=
  Mixer.mk0 48000 (List.replicate 4294972097 0) true [] true

/-- At 48 kHz, 50 samples on the left and 30 on the right, both sides started,
a hole pending on the right. -/
def holePending : Mixer :=
  { m_sample_rate := 48000
    m_buffer_left := { samples := List.replicate 50 1, started := true, hole := false }
    m_buffer_right := { samples := List.replicate 30 2, started := true, hole := true }
    output := [] }

/-- At 48 kHz: 4801 samples arrive on the left, the mixer iterates, 4801
samples arrive on the right, the mixer iterates. -/
def starvedRun : List Op :=
  [Op.leftSamples 1 48000 AVSampleFormat.AV_SAMPLE_FMT_S16 4801 (fun _ => 1) 0,
   Op.mix 0,
   Op.rightSamples 1 48000 AVSampleFormat.AV_SAMPLE_FMT_S16 4801 (fun _ => 2) 0,
   Op.mix 0]

/-- At 48 kHz: three samples on the left, two on the right, an iteration, one
more on the right, an iteration. -/
def pairedRun : List Op :=
  [Op.leftSamples 1 48000 AVSampleFormat.AV_SAMPLE_FMT_S16 3 (fun i => 1 + i) 0,
   Op.rightSamples 1 48000 AVSampleFormat.AV_SAMPLE_FMT_S16 2 (fun i => 10 + i) 0,
   Op.mix 5,
   Op.rightSamples 1 48000 AVSampleFormat.AV_SAMPLE_FMT_S16 1 (fun _ => 12) 0,
   Op.mix 6]

/-- The state that `overlongDelivery` reaches: 2^32 + 5 samples in the left
buffer, the right side not started. -/
def overlongIdle : Mixer :=
  Mixer.mk0 48000
    (readSamples (fun _ => 0) 4294967295 ++ readSamples (fun _ => 0) 6) true [] false

/-- The state that `overlongPair` reaches: 2^32 + 1 samples in the left buffer,
three in the right buffer. -/
def overlongPairState : Mixer :=
  Mixer.mk0 48000
    (readSamples (fun _ => 0) 4294967295 ++ readSamples (fun _ => 0) 2) true
    (readSamples (fun _ => 0) 3) true

/-- At 30 Hz from the initial state: six samples reach the left sink and one
the right sink. -/
def surplusDelivery : List Op :=
  [Op.leftSamples 1 30 AVSampleFormat.AV_SAMPLE_FMT_S16 6 (fun i => 1 + i) 0,
   Op.rightSamples 1 30 AVSampleFormat.AV_SAMPLE_FMT_S16 1 (fun _ => 9) 0]

/-! ## Lemmas on the output loop -/

theorem toU32_of_lt {n : Nat} (h : n < 4294967296) : toU32 n = n :=
  Nat.mod_eq_of_lt h

theorem toU32_le (n : Nat) : toU32 n ≤ n := Nat.mod_le _ _

theorem toU32_lt (n : Nat) : toU32 n < 4294967296 := Nat.mod_lt _ (by decide)

theorem length_resize (v : List Int) (n : Nat) : (resize v n).length = n := by
  simp only [resize, List.length_append, List.length_take, List.length_replicate]
  omega

theorem set_set_succ (a b : Int) : ∀ (v : List Int) (k : Nat), k + 1 < v.length →
    (v.set k a).set (k + 1) b = v.take k ++ a :: b :: v.drop (k + 2)
  | [], _, h => by simp at h
  | [_], _, h => by simp at h
  | x :: y :: v, 0, _ => by simp
  | x :: y :: v, k + 1, h => by
    have ih := set_set_succ a b (y :: v) k (by simpa using h)
    simpa using ih

theorem length_pairsFrom (f g : Nat → Int) : ∀ n i, (pairsFrom f g n i).length = 2 * n
  | 0, _ => rfl
  | n + 1, i => by simp [pairsFrom, length_pairsFrom f g n (i + 1)]; omega

theorem fillOutput_eq (l r : Nat → Option Int) (f g : Nat → Int) :
    ∀ (n i : Nat) (out : List Int),
      (∀ j, i ≤ j → j < i + n → l j = some (f j) ∧ r j = some (g j)) →
      2 * (i + n) ≤ out.length → 2 * (i + n) ≤ 4294967296 →
      fillOutput l r n i out
        = some (out.take (2 * i) ++ pairsFrom f g n i ++ out.drop (2 * (i + n)))
  | 0, i, out, _, _, _ => by simp [fillOutput, pairsFrom]
  | n + 1, i, out, hrd, hlen, hmax => by
    obtain ⟨hl, hr⟩ := hrd i (Nat.le_refl i) (by omega)
    have h0 : toU32 (toU32 (i * 2) + 0) = 2 * i := by
      rw [Nat.add_zero, toU32_of_lt (toU32_lt _), toU32_of_lt (by omega)]; omega
    have h1 : toU32 (toU32 (i * 2) + 1) = 2 * i + 1 := by
      rw [toU32_of_lt (show i * 2 < 4294967296 by omega), toU32_of_lt (by omega)]; omega
    have hi : toU32 (i + 1) = i + 1 := toU32_of_lt (by omega)
    have ih := fillOutput_eq l r f g n (i + 1) ((out.set (2 * i) (f i)).set (2 * i + 1) (g i))
      (fun j hj hj2 => hrd j (by omega) (by omega))
      (by simp only [List.length_set]; omega) (by omega)
    have hset := set_set_succ (f i) (g i) out (2 * i) (by omega)
    simp only [fillOutput, hl, hr, h0, h1, hi, store, List.length_set, Option.bind_eq_bind,
      Option.some_bind]
    have c0 : 2 * i < out.length := by omega
    have c1 : 2 * i + 1 < (out.set (2 * i) (f i)).length := by
      rw [List.length_set]; omega
    rw [if_pos c0, Option.some_bind, if_pos c1, Option.some_bind, ih, hset]
    congr 1
    have e1 : 2 * (i + 1) = 2 * i + 2 := by omega
    have e2 : 2 * (i + 1 + n) = (2 * i + 2) + 2 * n := by omega
    have e3 : 2 * (i + (n + 1)) = (2 * i + 2) + 2 * n := by omega
    have hk : (List.take (2 * i) out).length = 2 * i := by
      rw [List.length_take]; omega
    rw [e1, e2, e3]
    have t1 : List.take (2 * i + 2) (List.take (2 * i) out ++ f i :: g i :: List.drop (2 * i + 2) out)
        = List.take (2 * i) out ++ [f i, g i] := by
      rw [List.take_append_eq_append_take, hk]; simp
    have t2 : List.drop (2 * i + 2 + 2 * n) (List.take (2 * i) out ++ f i :: g i :: List.drop (2 * i + 2) out)
        = List.drop (2 * i + 2 + 2 * n) out := by
      rw [List.drop_append_eq_append_drop, hk]
      have : 2 * i + 2 + 2 * n - 2 * i = (2 * n) + 2 := by omega
      rw [this, List.drop_of_length_le (by omega)]
      simp [List.drop_drop]
    rw [t1, t2]
    simp [pairsFrom]

theorem pairsFrom_lists (L R : List Int) : ∀ (n i : Nat), i + n ≤ L.length → i + n ≤ R.length →
    pairsFrom (fun j => L.getD j 0) (fun j => R.getD j 0) n i
      = interleave ((L.drop i).take n) ((R.drop i).take n)
  | 0, i, _, _ => by simp [pairsFrom, interleave]
  | n + 1, i, hL, hR => by
    have hl : i < L.length := by omega
    have hr : i < R.length := by omega
    rw [List.drop_eq_getElem_cons hl, List.drop_eq_getElem_cons hr]
    simp only [pairsFrom, List.take_succ_cons, interleave]
    rw [pairsFrom_lists L R n (i + 1) (by omega) (by omega)]
    simp [List.getD_eq_getElem?_getD, List.getElem?_eq_getElem hl, List.getElem?_eq_getElem hr]

/-- The loop run on a freshly resized output vector, reading from two lists. -/
theorem fillOutput_lists (l r : Nat → Option Int) (L R : List Int) (out : List Int) (count : Nat)
    (hl : ∀ j, j < count → l j = some (L.getD j 0)) (hr : ∀ j, j < count → r j = some (R.getD j 0))
    (hL : count ≤ L.length) (hR : count ≤ R.length) (hmax : count < 2147483648) :
    fillOutput l r count 0 (resize out (toU32 (count * 2)))
      = some (interleave (L.take count) (R.take count)) := by
  have h2 : toU32 (count * 2) = 2 * count := by rw [toU32_of_lt (by omega)]; omega
  rw [h2, fillOutput_eq l r (fun j => L.getD j 0) (fun j => R.getD j 0) count 0 _
    (fun j _ hj => ⟨hl j (by omega), hr j (by omega)⟩) (by rw [length_resize]; omega) (by omega),
    pairsFrom_lists L R count 0 (by omega) (by omega)]
  simp [length_resize]

theorem getElem?_eq_some_getD (L : List Int) (j : Nat) (h : j < L.length) :
    L[j]? = some (L.getD j 0) := by
  simp [List.getD_eq_getElem?_getD, List.getElem?_eq_getElem h]

theorem outputLeftWithSilence_eq (timestamp : Int) (m : Mixer)
    (hpos : 0 < toU32 m.m_buffer_left.samples.length)
    (hmax : toU32 m.m_buffer_left.samples.length < 2147483648) :
    outputLeftWithSilence timestamp m
      = some ({ m with
                m_buffer_left := { m.m_buffer_left with samples := [] }
                output := interleave
                  (m.m_buffer_left.samples.take (toU32 m.m_buffer_left.samples.length))
                  (List.replicate (toU32 m.m_buffer_left.samples.length) 0) },
              [AudioEvent.PushAudioSamples 2 m.m_sample_rate AVSampleFormat.AV_SAMPLE_FMT_S16
                (toU32 m.m_buffer_left.samples.length)
                (interleave
                  (m.m_buffer_left.samples.take (toU32 m.m_buffer_left.samples.length))
                  (List.replicate (toU32 m.m_buffer_left.samples.length) 0))
                timestamp]) := by
  have hle := toU32_le m.m_buffer_left.samples.length
  have hfill := fillOutput_lists (fun i => m.m_buffer_left.samples[i]?) (fun _ => some 0)
    m.m_buffer_left.samples (List.replicate (toU32 m.m_buffer_left.samples.length) 0) m.output
    (toU32 m.m_buffer_left.samples.length)
    (fun j hj => getElem?_eq_some_getD _ j (by omega))
    (fun j hj => by simp [List.getD_eq_getElem?_getD, hj])
    hle (by simp) hmax
  simp only [List.take_replicate, Nat.min_self] at hfill
  simp [outputLeftWithSilence, hpos, hfill]

theorem outputRightWithSilence_eq (timestamp : Int) (m : Mixer)
    (hpos : 0 < toU32 m.m_buffer_right.samples.length)
    (hmax : toU32 m.m_buffer_right.samples.length < 2147483648) :
    outputRightWithSilence timestamp m
      = some ({ m with
                m_buffer_right := { m.m_buffer_right with samples := [] }
                output := interleave
                  (List.replicate (toU32 m.m_buffer_right.samples.length) 0)
                  (m.m_buffer_right.samples.take (toU32 m.m_buffer_right.samples.length)) },
              [AudioEvent.PushAudioSamples 2 m.m_sample_rate AVSampleFormat.AV_SAMPLE_FMT_S16
                (toU32 m.m_buffer_right.samples.length)
                (interleave
                  (List.replicate (toU32 m.m_buffer_right.samples.length) 0)
                  (m.m_buffer_right.samples.take (toU32 m.m_buffer_right.samples.length)))
                timestamp]) := by
  have hle := toU32_le m.m_buffer_right.samples.length
  have hfill := fillOutput_lists (fun _ => some 0) (fun i => m.m_buffer_right.samples[i]?)
    (List.replicate (toU32 m.m_buffer_right.samples.length) 0) m.m_buffer_right.samples m.output
    (toU32 m.m_buffer_right.samples.length)
    (fun j hj => by simp [List.getD_eq_getElem?_getD, hj])
    (fun j hj => getElem?_eq_some_getD _ j (by omega))
    (by simp) hle hmax
  simp only [List.take_replicate, Nat.min_self] at hfill
  simp [outputRightWithSilence, hpos, hfill]

theorem interleaveBoth_eq (timestamp : Int) (m : Mixer) (k : Nat)
    (hk : k = min (toU32 m.m_buffer_left.samples.length) (toU32 m.m_buffer_right.samples.length))
    (hpos : 0 < k) (hmax : k < 2147483648) :
    interleaveBoth timestamp m
      = some ({ m with
                m_buffer_left := { m.m_buffer_left with samples := m.m_buffer_left.samples.drop k }
                m_buffer_right :=
                  { m.m_buffer_right with samples := m.m_buffer_right.samples.drop k }
                output := interleave (m.m_buffer_left.samples.take k)
                  (m.m_buffer_right.samples.take k) },
              [AudioEvent.PushAudioSamples 2 m.m_sample_rate AVSampleFormat.AV_SAMPLE_FMT_S16 k
                (interleave (m.m_buffer_left.samples.take k) (m.m_buffer_right.samples.take k))
                timestamp]) := by
  have hl := toU32_le m.m_buffer_left.samples.length
  have hr := toU32_le m.m_buffer_right.samples.length
  have hfill := fillOutput_lists (fun i => m.m_buffer_left.samples[i]?)
    (fun i => m.m_buffer_right.samples[i]?) m.m_buffer_left.samples m.m_buffer_right.samples
    m.output k
    (fun j hj => getElem?_eq_some_getD _ j (by omega))
    (fun j hj => getElem?_eq_some_getD _ j (by omega))
    (by omega) (by omega) hmax
  have hne : k ≠ 0 := by omega
  simp only [interleaveBoth, ← hk, hne, if_false, hfill]
  rfl

theorem mixerAction_eq (s : Snapshot) (timestamp : Int) (m : Mixer) :
    mixerAction s timestamp m
      = match selectBranch s (m.m_sample_rate / 10) with
        | Branch.gap =>
            some ({ m with
                    m_buffer_left := { samples := [], started := false, hole := false }
                    m_buffer_right := { samples := [], started := false, hole := false } },
                  [AudioEvent.PushAudioHole])
        | Branch.leftOnly => outputLeftWithSilence timestamp m
        | Branch.rightOnly => outputRightWithSilence timestamp m
        | Branch.both => interleaveBoth timestamp m
        | Branch.idle => some (m, []) := by
  unfold mixerAction selectBranch
  dsimp only
  split_ifs <;> simp_all

theorem MixerIteration_both (timestamp : Int) (m : Mixer) (k : Nat)
    (hlh : m.m_buffer_left.hole = false) (hrh : m.m_buffer_right.hole = false)
    (hls : m.m_buffer_left.started = true) (hrs : m.m_buffer_right.started = true)
    (hk : k = min (toU32 m.m_buffer_left.samples.length) (toU32 m.m_buffer_right.samples.length))
    (hpos : 0 < k) (hmax : k < 2147483648) :
    MixerIteration timestamp m
      = some ({ m with
                m_buffer_left := { m.m_buffer_left with samples := m.m_buffer_left.samples.drop k }
                m_buffer_right :=
                  { m.m_buffer_right with samples := m.m_buffer_right.samples.drop k }
                output := interleave (m.m_buffer_left.samples.take k)
                  (m.m_buffer_right.samples.take k) },
              [AudioEvent.PushAudioSamples 2 m.m_sample_rate AVSampleFormat.AV_SAMPLE_FMT_S16 k
                (interleave (m.m_buffer_left.samples.take k) (m.m_buffer_right.samples.take k))
                timestamp]) := by
  have hb : selectBranch (takeSnapshot m) (m.m_sample_rate / 10) = Branch.both := by
    have hne : ¬ min (toU32 m.m_buffer_left.samples.length)
        (toU32 m.m_buffer_right.samples.length) = 0 := by omega
    simp [selectBranch, takeSnapshot, hlh, hrh, hls, hrs, hne]
  rw [MixerIteration, mixerAction_eq, hb]
  exact interleaveBoth_eq timestamp m k hk hpos hmax

theorem MixerIteration_eq (timestamp : Int) (m : Mixer) :
    MixerIteration timestamp m
      = match selectBranch (takeSnapshot m) (m.m_sample_rate / 10) with
        | Branch.gap =>
            some ({ m with
                    m_buffer_left := { samples := [], started := false, hole := false }
                    m_buffer_right := { samples := [], started := false, hole := false } },
                  [AudioEvent.PushAudioHole])
        | Branch.leftOnly => outputLeftWithSilence timestamp m
        | Branch.rightOnly => outputRightWithSilence timestamp m
        | Branch.both => interleaveBoth timestamp m
        | Branch.idle => some (m, []) :=
  mixerAction_eq (takeSnapshot m) timestamp m

theorem MixerIteration_leftOnly (timestamp : Int) (m : Mixer)
    (hb : selectBranch (takeSnapshot m) (m.m_sample_rate / 10) = Branch.leftOnly)
    (hpos : 0 < m.m_buffer_left.samples.length)
    (hmax : m.m_buffer_left.samples.length < 2147483648) :
    MixerIteration timestamp m
      = some ({ m with
                m_buffer_left := { m.m_buffer_left with samples := [] }
                output := interleave m.m_buffer_left.samples
                  (List.replicate m.m_buffer_left.samples.length 0) },
              [AudioEvent.PushAudioSamples 2 m.m_sample_rate AVSampleFormat.AV_SAMPLE_FMT_S16
                m.m_buffer_left.samples.length
                (interleave m.m_buffer_left.samples
                  (List.replicate m.m_buffer_left.samples.length 0))
                timestamp]) := by
  have hu : toU32 m.m_buffer_left.samples.length = m.m_buffer_left.samples.length :=
    toU32_of_lt (by omega)
  rw [MixerIteration_eq, hb]
  have h := outputLeftWithSilence_eq timestamp m (by omega) (by omega)
  rw [hu, List.take_length] at h
  exact h

theorem MixerIteration_rightOnly (timestamp : Int) (m : Mixer)
    (hb : selectBranch (takeSnapshot m) (m.m_sample_rate / 10) = Branch.rightOnly)
    (hpos : 0 < m.m_buffer_right.samples.length)
    (hmax : m.m_buffer_right.samples.length < 2147483648) :
    MixerIteration timestamp m
      = some ({ m with
                m_buffer_right := { m.m_buffer_right with samples := [] }
                output := interleave (List.replicate m.m_buffer_right.samples.length 0)
                  m.m_buffer_right.samples },
              [AudioEvent.PushAudioSamples 2 m.m_sample_rate AVSampleFormat.AV_SAMPLE_FMT_S16
                m.m_buffer_right.samples.length
                (interleave (List.replicate m.m_buffer_right.samples.length 0)
                  m.m_buffer_right.samples)
                timestamp]) := by
  have hu : toU32 m.m_buffer_right.samples.length = m.m_buffer_right.samples.length :=
    toU32_of_lt (by omega)
  rw [MixerIteration_eq, hb]
  have h := outputRightWithSilence_eq timestamp m (by omega) (by omega)
  rw [hu, List.take_length] at h
  exact h

theorem MixerIteration_idle (timestamp : Int) (m : Mixer)
    (hb : selectBranch (takeSnapshot m) (m.m_sample_rate / 10) = Branch.idle) :
    MixerIteration timestamp m = some (m, []) := by
  rw [MixerIteration_eq, hb]

theorem MixerIteration_leftOnly_count (timestamp : Int) (m : Mixer) (k : Nat)
    (hk : toU32 m.m_buffer_left.samples.length = k)
    (hb : selectBranch (takeSnapshot m) (m.m_sample_rate / 10) = Branch.leftOnly)
    (hpos : 0 < k) (hmax : k < 2147483648) :
    MixerIteration timestamp m
      = some ({ m with
                m_buffer_left := { m.m_buffer_left with samples := [] }
                output := interleave (m.m_buffer_left.samples.take k) (List.replicate k 0) },
              [AudioEvent.PushAudioSamples 2 m.m_sample_rate AVSampleFormat.AV_SAMPLE_FMT_S16 k
                (interleave (m.m_buffer_left.samples.take k) (List.replicate k 0)) timestamp]) := by
  subst hk
  rw [MixerIteration_eq, hb]
  exact outputLeftWithSilence_eq timestamp m hpos hmax

theorem MixerIteration_rightOnly_count (timestamp : Int) (m : Mixer) (k : Nat)
    (hk : toU32 m.m_buffer_right.samples.length = k)
    (hb : selectBranch (takeSnapshot m) (m.m_sample_rate / 10) = Branch.rightOnly)
    (hpos : 0 < k) (hmax : k < 2147483648) :
    MixerIteration timestamp m
      = some ({ m with
                m_buffer_right := { m.m_buffer_right with samples := [] }
                output := interleave (List.replicate k 0) (m.m_buffer_right.samples.take k) },
              [AudioEvent.PushAudioSamples 2 m.m_sample_rate AVSampleFormat.AV_SAMPLE_FMT_S16 k
                (interleave (List.replicate k 0) (m.m_buffer_right.samples.take k))
                timestamp]) := by
  subst hk
  rw [MixerIteration_eq, hb]
  exact outputRightWithSilence_eq timestamp m hpos hmax

/-! ## Gap propagation -/

/-- C1: if the hole flag of the left or of the right buffer is set, one mixer
iteration makes exactly one downstream call, `PushAudioHole`, and leaves both
buffers empty with `started = false` and `hole = false`, whatever the buffers
held and whatever the started flags were. -/
theorem C1_gap_propagation (timestamp : Int) (m : Mixer)
    (h : m.m_buffer_left.hole = true ∨ m.m_buffer_right.hole = true) :
    MixerIteration timestamp m
      = some ({ m with
                m_buffer_left := { samples := [], started := false, hole := false }
                m_buffer_right := { samples := [], started := false, hole := false } },
              [AudioEvent.PushAudioHole]) := by
  have hh : (m.m_buffer_left.hole || m.m_buffer_right.hole) = true := by
    rcases h with h | h <;> simp [h]
  simp [MixerIteration, mixerAction, takeSnapshot, hh]

/-- Witness of C1: 50 samples on the left, 30 on the right, both sides started
so that an interleave would have been possible, a hole pending on the right. -/
theorem C1_gap_propagation_witness :
    holePending.m_buffer_left.samples.length = 50 ∧
    holePending.m_buffer_right.samples.length = 30 ∧
    MixerIteration 7 holePending
      = some ({ m_sample_rate := 48000
                m_buffer_left := { samples := [], started := false, hole := false }
                m_buffer_right := { samples := [], started := false, hole := false }
                output := [] },
              [AudioEvent.PushAudioHole]) :=
  ⟨by decide, by decide, C1_gap_propagation 7 holePending (Or.inr rfl)⟩

/-! ## Steady-state interleave -/

/-- C2 (amended): with no hole pending, both sides started, both buffers
non-empty and of fewer than 2^32 samples, and `m = min(|L|, |R|) < 2^31`, one
mixer iteration makes exactly one downstream call, a stereo S16 frame at the
configured rate with `sample_count = m` and data `[L0, R0, ..., L(m-1), R(m-1)]`,
and removes the first `m` samples from both buffers, flags unchanged. -/
theorem C2_interleave_iteration (timestamp : Int) (m : Mixer)
    (hlh : m.m_buffer_left.hole = false) (hrh : m.m_buffer_right.hole = false)
    (hls : m.m_buffer_left.started = true) (hrs : m.m_buffer_right.started = true)
    (hl : m.m_buffer_left.samples ≠ []) (hr : m.m_buffer_right.samples ≠ [])
    (hL : m.m_buffer_left.samples.length < 4294967296)
    (hR : m.m_buffer_right.samples.length < 4294967296)
    (hmin : min m.m_buffer_left.samples.length m.m_buffer_right.samples.length < 2147483648) :
    MixerIteration timestamp m
      = some ({ m with
                m_buffer_left :=
                  { m.m_buffer_left with
                    samples := m.m_buffer_left.samples.drop
                      (min m.m_buffer_left.samples.length m.m_buffer_right.samples.length) }
                m_buffer_right :=
                  { m.m_buffer_right with
                    samples := m.m_buffer_right.samples.drop
                      (min m.m_buffer_left.samples.length m.m_buffer_right.samples.length) }
                output := interleave
                  (m.m_buffer_left.samples.take
                    (min m.m_buffer_left.samples.length m.m_buffer_right.samples.length))
                  (m.m_buffer_right.samples.take
                    (min m.m_buffer_left.samples.length m.m_buffer_right.samples.length)) },
              [AudioEvent.PushAudioSamples 2 m.m_sample_rate AVSampleFormat.AV_SAMPLE_FMT_S16
                (min m.m_buffer_left.samples.length m.m_buffer_right.samples.length)
                (interleave
                  (m.m_buffer_left.samples.take
                    (min m.m_buffer_left.samples.length m.m_buffer_right.samples.length))
                  (m.m_buffer_right.samples.take
                    (min m.m_buffer_left.samples.length m.m_buffer_right.samples.length)))
                timestamp]) := by
  have h1 : 0 < m.m_buffer_left.samples.length := List.length_pos.mpr hl
  have h2 : 0 < m.m_buffer_right.samples.length := List.length_pos.mpr hr
  exact MixerIteration_both timestamp m _ hlh hrh hls hrs
    (by rw [toU32_of_lt hL, toU32_of_lt hR]) (by omega) hmin

/-- Witness of C2: five samples against three. -/
theorem C2_interleave_iteration_witness :
    MixerIteration 7 (Mixer.mk0 48000 [1, 2, 3, 4, 5] true [-1, -2, -3] true)
      = some ({ Mixer.mk0 48000 [4, 5] true [] true with output := [1, -1, 2, -2, 3, -3] },
              [AudioEvent.PushAudioSamples 2 48000 AVSampleFormat.AV_SAMPLE_FMT_S16 3
                [1, -1, 2, -2, 3, -3] 7]) :=
  C2_interleave_iteration 7 (Mixer.mk0 48000 [1, 2, 3, 4, 5] true [-1, -2, -3] true)
    rfl rfl rfl rfl (by decide) (by decide) (by decide) (by decide) (by decide)

/-- Counterexample to C2 as stated: the left buffer holds 2^32 + 1 samples and
the right buffer three, so `m = 3`; the size of the left buffer is read into an
`unsigned int` as 1, and the frame has one pair only. -/
theorem C2_counterexample :
    overlongBoth.m_buffer_left.hole = false ∧ overlongBoth.m_buffer_right.hole = false ∧
    overlongBoth.m_buffer_left.started = true ∧ overlongBoth.m_buffer_right.started = true ∧
    overlongBoth.m_buffer_left.samples ≠ [] ∧ overlongBoth.m_buffer_right.samples ≠ [] ∧
    min overlongBoth.m_buffer_left.samples.length overlongBoth.m_buffer_right.samples.length = 3 ∧
    (MixerIteration 0 overlongBoth).map Prod.snd
      = some [AudioEvent.PushAudioSamples 2 48000 AVSampleFormat.AV_SAMPLE_FMT_S16 1 [0, 7] 0] := by
  have hL : overlongBoth.m_buffer_left.samples.length = 4294967297 := List.length_replicate _ _
  have hR : overlongBoth.m_buffer_right.samples.length = 3 := rfl
  have hne : overlongBoth.m_buffer_left.samples ≠ [] := by
    intro h
    rw [h] at hL
    exact absurd hL (by decide)
  refine ⟨rfl, rfl, rfl, rfl, hne, by decide, by rw [hL, hR]; decide, ?_⟩
  rw [MixerIteration_both 0 overlongBoth 1 rfl rfl rfl rfl (by rw [hL, hR]; decide) (by decide)
    (by decide)]
  rfl

/-! ## Warm-up -/

/-- C4 (amended): with no hole pending, if the left side has started, the
right side has not, and the left buffer `L` holds more than
`silence_threshold = sample_rate / 10` and fewer than 2^31 samples, one mixer
iteration makes exactly one downstream call, a stereo frame of `|L|` pairs
`(L[k], 0)`, and empties the left buffer; the right buffer and all flags are
unchanged.  Symmetrically for the right side, with pairs `(0, R[k])`. -/
theorem C4_warmup_silence (timestamp : Int) (m : Mixer)
    (hlh : m.m_buffer_left.hole = false) (hrh : m.m_buffer_right.hole = false) :
    (m.m_buffer_left.started = true → m.m_buffer_right.started = false →
      m.m_sample_rate / 10 < m.m_buffer_left.samples.length →
      m.m_buffer_left.samples.length < 2147483648 →
      MixerIteration timestamp m
        = some ({ m with
                  m_buffer_left := { m.m_buffer_left with samples := [] }
                  output := interleave m.m_buffer_left.samples
                    (List.replicate m.m_buffer_left.samples.length 0) },
                [AudioEvent.PushAudioSamples 2 m.m_sample_rate AVSampleFormat.AV_SAMPLE_FMT_S16
                  m.m_buffer_left.samples.length
                  (interleave m.m_buffer_left.samples
                    (List.replicate m.m_buffer_left.samples.length 0))
                  timestamp])) ∧
    (m.m_buffer_right.started = true → m.m_buffer_left.started = false →
      m.m_sample_rate / 10 < m.m_buffer_right.samples.length →
      m.m_buffer_right.samples.length < 2147483648 →
      MixerIteration timestamp m
        = some ({ m with
                  m_buffer_right := { m.m_buffer_right with samples := [] }
                  output := interleave (List.replicate m.m_buffer_right.samples.length 0)
                    m.m_buffer_right.samples },
                [AudioEvent.PushAudioSamples 2 m.m_sample_rate AVSampleFormat.AV_SAMPLE_FMT_S16
                  m.m_buffer_right.samples.length
                  (interleave (List.replicate m.m_buffer_right.samples.length 0)
                    m.m_buffer_right.samples)
                  timestamp])) := by
  constructor
  · intro hls hrs hthr hmax
    have hu := toU32_of_lt (show m.m_buffer_left.samples.length < 4294967296 by omega)
    refine MixerIteration_leftOnly timestamp m ?_ (by omega) hmax
    simp [selectBranch, takeSnapshot, hlh, hrh, hls, hrs, hu, hthr]
  · intro hrs hls hthr hmax
    have hu := toU32_of_lt (show m.m_buffer_right.samples.length < 4294967296 by omega)
    refine MixerIteration_rightOnly timestamp m ?_ (by omega) hmax
    simp [selectBranch, takeSnapshot, hlh, hrh, hls, hrs, hu, hthr]

/-- Witness of C4: at 30 Hz the threshold is 3; four samples on the only side
that has started. -/
theorem C4_warmup_silence_witness :
    MixerIteration 7 (Mixer.mk0 30 [1, 2, 3, 4] true [] false)
      = some ({ Mixer.mk0 30 [] true [] false with output := [1, 0, 2, 0, 3, 0, 4, 0] },
              [AudioEvent.PushAudioSamples 2 30 AVSampleFormat.AV_SAMPLE_FMT_S16 4
                [1, 0, 2, 0, 3, 0, 4, 0] 7]) ∧
    MixerIteration 7 (Mixer.mk0 30 [] false [1, 2, 3, 4] true)
      = some ({ Mixer.mk0 30 [] false [] true with output := [0, 1, 0, 2, 0, 3, 0, 4] },
              [AudioEvent.PushAudioSamples 2 30 AVSampleFormat.AV_SAMPLE_FMT_S16 4
                [0, 1, 0, 2, 0, 3, 0, 4] 7]) :=
  ⟨(C4_warmup_silence 7 (Mixer.mk0 30 [1, 2, 3, 4] true [] false) rfl rfl).1
      rfl rfl (by decide) (by decide),
   (C4_warmup_silence 7 (Mixer.mk0 30 [] false [1, 2, 3, 4] true) rfl rfl).2
      rfl rfl (by decide) (by decide)⟩

/-- Counterexample to C4 as stated: only the left side has started and its
buffer holds 2^32 + 4801 samples, more than the threshold 4800; the frame has
4801 pairs, not one per buffered sample. -/
theorem C4_counterexample :
    overlongWarmup.m_buffer_left.hole = false ∧ overlongWarmup.m_buffer_right.hole = false ∧
    overlongWarmup.m_buffer_left.started = true ∧
    overlongWarmup.m_buffer_right.started = false ∧
    overlongWarmup.m_buffer_right.samples = [] ∧
    overlongWarmup.m_sample_rate / 10 < overlongWarmup.m_buffer_left.samples.length ∧
    overlongWarmup.m_buffer_left.samples.length = 4294972097 ∧
    ∃ m data, MixerIteration 0 overlongWarmup
      = some (m, [AudioEvent.PushAudioSamples 2 48000 AVSampleFormat.AV_SAMPLE_FMT_S16
          4801 data 0]) := by
  have hL : overlongWarmup.m_buffer_left.samples.length = 4294972097 :=
    List.length_replicate _ _
  have hk : toU32 overlongWarmup.m_buffer_left.samples.length = 4801 := by rw [hL]; rfl
  have hlh : overlongWarmup.m_buffer_left.hole = false := rfl
  have hrh : overlongWarmup.m_buffer_right.hole = false := rfl
  have hls : overlongWarmup.m_buffer_left.started = true := rfl
  have hrs : overlongWarmup.m_buffer_right.started = false := rfl
  have hrate : overlongWarmup.m_sample_rate = 48000 := rfl
  have hb : selectBranch (takeSnapshot overlongWarmup) (overlongWarmup.m_sample_rate / 10)
      = Branch.leftOnly := by
    simp [selectBranch, takeSnapshot, hk, hlh, hrh, hls, hrs, hrate]
  exact ⟨rfl, rfl, rfl, rfl, rfl, by rw [hL, hrate]; decide, hL, _, _,
    MixerIteration_leftOnly_count 0 overlongWarmup 4801 hk hb (by decide) (by decide)⟩

/-! ## Channel sink -/

theorem length_readSamples (data : Nat → Int) (n : Nat) : (readSamples data n).length = n := by
  simp [readSamples]

theorem getElem?_readSamples (data : Nat → Int) (n i : Nat) (h : i < n) :
    (readSamples data n)[i]? = some (data i) := by
  simp [readSamples, List.getElem?_range h]

/-- C5: `ReadAudioSamples` leaves the buffer entirely unchanged when
`channels != 1` or `sample_count == 0`; otherwise it appends the first
`sample_count` samples of the data in order at the tail (the buffer grows by
`sample_count`, the old samples keep their places, the new sample `i` is
`data[i]`), sets `started`, and keeps `hole` as it was.  Sample rate, format
and timestamp never influence the result. -/
theorem C5_receive_samples (b : ChannelBuffer) (channels sample_rate : Nat)
    (format : AVSampleFormat) (sample_count : Nat) (data : Nat → Int) (timestamp : Int) :
    ((channels ≠ 1 ∨ sample_count = 0) →
      ChannelSink.ReadAudioSamples b channels sample_rate format sample_count data timestamp
        = b) ∧
    (channels = 1 → sample_count ≠ 0 →
      ChannelSink.ReadAudioSamples b channels sample_rate format sample_count data timestamp
        = { samples := b.samples ++ readSamples data sample_count
            started := true
            hole := b.hole }) ∧
    ((readSamples data sample_count).length = sample_count ∧
      ∀ i, i < sample_count →
        (b.samples ++ readSamples data sample_count)[b.samples.length + i]? = some (data i)) ∧
    (∀ (sample_rate2 : Nat) (format2 : AVSampleFormat) (timestamp2 : Int),
      ChannelSink.ReadAudioSamples b channels sample_rate2 format2 sample_count data timestamp2
        = ChannelSink.ReadAudioSamples b channels sample_rate format sample_count data
            timestamp) := by
  refine ⟨fun h => ?_, fun h1 h2 => ?_, ⟨length_readSamples _ _, fun i hi => ?_⟩,
    fun _ _ _ => rfl⟩
  · simp [ChannelSink.ReadAudioSamples, h]
  · simp [ChannelSink.ReadAudioSamples, h1, h2]
  · rw [List.getElem?_append_right (by omega)]
    simpa using getElem?_readSamples data sample_count i hi

/-- Witness of C5: a stereo batch is discarded, a mono batch of three samples is
appended behind a pending hole. -/
theorem C5_receive_samples_witness :
    ChannelSink.ReadAudioSamples { samples := [5], started := false, hole := true } 2 48000
        AVSampleFormat.AV_SAMPLE_FMT_S16 3 (fun i => i + 1) 9
      = { samples := [5], started := false, hole := true } ∧
    ChannelSink.ReadAudioSamples { samples := [5], started := false, hole := true } 1 48000
        AVSampleFormat.AV_SAMPLE_FMT_S16 3 (fun i => i + 1) 9
      = { samples := [5, 1, 2, 3], started := true, hole := true } :=
  ⟨(C5_receive_samples { samples := [5], started := false, hole := true } 2 48000
      AVSampleFormat.AV_SAMPLE_FMT_S16 3 (fun i => i + 1) 9).1 (Or.inl (by decide)),
   (C5_receive_samples { samples := [5], started := false, hole := true } 1 48000
      AVSampleFormat.AV_SAMPLE_FMT_S16 3 (fun i => i + 1) 9).2.1 rfl (by decide)⟩

/-! ## Waiting -/

theorem run_mix_idle (m : Mixer)
    (hb : selectBranch (takeSnapshot m) (m.m_sample_rate / 10) = Branch.idle) :
    ∀ tss : List Int, ∃ tr, run (tss.map Op.mix) m = some (m, tr) ∧ events tr = []
  | [] => ⟨[], rfl, rfl⟩
  | ts :: tss => by
    obtain ⟨tr, h1, h2⟩ := run_mix_idle m hb tss
    refine ⟨(Branch.idle, []) :: tr, ?_, ?_⟩
    · simp [run, MixerIteration_idle ts m hb, h1, hb]
    · simpa [events] using h2

/-- C6: with no hole pending, if not both sides have started and no started
side holds more than `silence_threshold = sample_rate / 10` samples (exactly
`silence_threshold` samples included), one mixer iteration makes no downstream
call and leaves the mixer as it is; so any number of iterations in a row make
no downstream call. -/
theorem C6_no_spurious_emission (m : Mixer)
    (hlh : m.m_buffer_left.hole = false) (hrh : m.m_buffer_right.hole = false)
    (hnot : ¬ (m.m_buffer_left.started = true ∧ m.m_buffer_right.started = true))
    (hl : m.m_buffer_left.started = true →
      m.m_buffer_left.samples.length ≤ m.m_sample_rate / 10)
    (hr : m.m_buffer_right.started = true →
      m.m_buffer_right.samples.length ≤ m.m_sample_rate / 10) :
    (∀ timestamp, MixerIteration timestamp m = some (m, [])) ∧
    (∀ timestamps : List Int,
      ∃ tr, run (timestamps.map Op.mix) m = some (m, tr) ∧ events tr = []) := by
  have hb : selectBranch (takeSnapshot m) (m.m_sample_rate / 10) = Branch.idle := by
    have h1 := toU32_le m.m_buffer_left.samples.length
    have h2 := toU32_le m.m_buffer_right.samples.length
    unfold selectBranch takeSnapshot
    simp only [hlh, hrh]
    cases hls : m.m_buffer_left.started <;> cases hrs : m.m_buffer_right.started
    · simp
    · have := hr hrs
      have h3 : ¬ m.m_sample_rate / 10 < toU32 m.m_buffer_right.samples.length := by omega
      simp [h3]
    · have := hl hls
      have h3 : ¬ m.m_sample_rate / 10 < toU32 m.m_buffer_left.samples.length := by omega
      simp [h3]
    · exact absurd ⟨hls, hrs⟩ hnot
  exact ⟨fun ts => MixerIteration_idle ts m hb, run_mix_idle m hb⟩

/-- Witness of C6: at 30 Hz the threshold is 3; exactly three samples on the
only side that has started. -/
theorem C6_no_spurious_emission_witness :
    (∀ timestamp, MixerIteration timestamp (Mixer.mk0 30 [1, 2, 3] true [] false)
      = some (Mixer.mk0 30 [1, 2, 3] true [] false, [])) ∧
    (∀ timestamps : List Int,
      ∃ tr, run (timestamps.map Op.mix) (Mixer.mk0 30 [1, 2, 3] true [] false)
        = some (Mixer.mk0 30 [1, 2, 3] true [] false, tr) ∧ events tr = []) :=
  C6_no_spurious_emission (Mixer.mk0 30 [1, 2, 3] true [] false) rfl rfl (by decide)
    (fun _ => by decide) (fun _ => by decide)

/-! ## Idempotent gap flag -/

/-- C7: `ReadAudioHole` called twice gives the same buffer as called once
(`hole = true`, samples and `started` unchanged); and after two calls in a row
on the left or on the right sink, the next mixer iteration makes exactly one
downstream call, `PushAudioHole`, and the iteration after it makes none,
exactly as after a single call. -/
theorem C7_idempotent_gap (b : ChannelBuffer) (m : Mixer) (t1 t2 : Int) :
    ChannelSink.ReadAudioHole (ChannelSink.ReadAudioHole b) = ChannelSink.ReadAudioHole b ∧
    ChannelSink.ReadAudioHole b = { samples := b.samples, started := b.started, hole := true } ∧
    run [Op.leftHole, Op.leftHole, Op.mix t1, Op.mix t2] m
      = some ({ m with m_buffer_left := ChannelBuffer.new, m_buffer_right := ChannelBuffer.new },
              [(Branch.gap, [AudioEvent.PushAudioHole]), (Branch.idle, [])]) ∧
    run [Op.rightHole, Op.rightHole, Op.mix t1, Op.mix t2] m
      = some ({ m with m_buffer_left := ChannelBuffer.new, m_buffer_right := ChannelBuffer.new },
              [(Branch.gap, [AudioEvent.PushAudioHole]), (Branch.idle, [])]) ∧
    run [Op.leftHole, Op.leftHole, Op.mix t1, Op.mix t2] m
      = run [Op.leftHole, Op.mix t1, Op.mix t2] m ∧
    run [Op.rightHole, Op.rightHole, Op.mix t1, Op.mix t2] m
      = run [Op.rightHole, Op.mix t1, Op.mix t2] m := by
  refine ⟨rfl, rfl, ?_, ?_, ?_, ?_⟩ <;>
    simp [run, sinkCall, ChannelSink.ReadAudioHole, MixerIteration, mixerAction, takeSnapshot,
      selectBranch, ChannelBuffer.new, toU32]

/-! ## Steady-state starvation -/

/-- C8 (amended): with no hole pending, both sides started, one buffer empty
and both buffers of fewer than 2^31 samples: if the left buffer `L` holds more
than `silence_threshold` samples, one mixer iteration makes one downstream
call, a frame of `|L|` pairs `(L[k], 0)`, and empties the left buffer; if the
right buffer `R` does, the frame has `|R|` pairs `(0, R[k])` and the right
buffer is emptied; if neither does, the iteration makes no downstream call and
changes nothing.  The started flags stay set in all three cases. -/
theorem C8_starvation_rule (timestamp : Int) (m : Mixer)
    (hlh : m.m_buffer_left.hole = false) (hrh : m.m_buffer_right.hole = false)
    (hls : m.m_buffer_left.started = true) (hrs : m.m_buffer_right.started = true)
    (hmin : min m.m_buffer_left.samples.length m.m_buffer_right.samples.length = 0)
    (hL : m.m_buffer_left.samples.length < 2147483648)
    (hR : m.m_buffer_right.samples.length < 2147483648) :
    (m.m_sample_rate / 10 < m.m_buffer_left.samples.length →
      MixerIteration timestamp m
        = some ({ m with
                  m_buffer_left := { samples := [], started := true, hole := false }
                  output := interleave m.m_buffer_left.samples
                    (List.replicate m.m_buffer_left.samples.length 0) },
                [AudioEvent.PushAudioSamples 2 m.m_sample_rate AVSampleFormat.AV_SAMPLE_FMT_S16
                  m.m_buffer_left.samples.length
                  (interleave m.m_buffer_left.samples
                    (List.replicate m.m_buffer_left.samples.length 0))
                  timestamp])) ∧
    (m.m_sample_rate / 10 < m.m_buffer_right.samples.length →
      MixerIteration timestamp m
        = some ({ m with
                  m_buffer_right := { samples := [], started := true, hole := false }
                  output := interleave (List.replicate m.m_buffer_right.samples.length 0)
                    m.m_buffer_right.samples },
                [AudioEvent.PushAudioSamples 2 m.m_sample_rate AVSampleFormat.AV_SAMPLE_FMT_S16
                  m.m_buffer_right.samples.length
                  (interleave (List.replicate m.m_buffer_right.samples.length 0)
                    m.m_buffer_right.samples)
                  timestamp])) ∧
    (m.m_buffer_left.samples.length ≤ m.m_sample_rate / 10 →
      m.m_buffer_right.samples.length ≤ m.m_sample_rate / 10 →
      MixerIteration timestamp m = some (m, [])) := by
  have hu1 := toU32_of_lt (show m.m_buffer_left.samples.length < 4294967296 by omega)
  have hu2 := toU32_of_lt (show m.m_buffer_right.samples.length < 4294967296 by omega)
  refine ⟨fun hthr => ?_, fun hthr => ?_, fun h1 h2 => ?_⟩
  · have h := MixerIteration_leftOnly timestamp m
      (by simp [selectBranch, takeSnapshot, hlh, hrh, hls, hrs, hu1, hu2, hmin, hthr])
      (by omega) hL
    rw [h, ← hls, ← hlh]
  · have hnl : ¬ m.m_sample_rate / 10 < m.m_buffer_left.samples.length := by omega
    have h := MixerIteration_rightOnly timestamp m
      (by simp [selectBranch, takeSnapshot, hlh, hrh, hls, hrs, hu1, hu2, hmin, hthr, hnl])
      (by omega) hR
    rw [h, ← hrs, ← hrh]
  · have hnl : ¬ m.m_sample_rate / 10 < m.m_buffer_left.samples.length := by omega
    have hnr : ¬ m.m_sample_rate / 10 < m.m_buffer_right.samples.length := by omega
    exact MixerIteration_idle timestamp m
      (by simp [selectBranch, takeSnapshot, hlh, hrh, hls, hrs, hu1, hu2, hmin, hnl, hnr])

/-- Witness of C8: at 30 Hz the threshold is 3. -/
theorem C8_starvation_rule_witness :
    MixerIteration 7 (Mixer.mk0 30 [1, 2, 3, 4] true [] true)
      = some ({ Mixer.mk0 30 [] true [] true with output := [1, 0, 2, 0, 3, 0, 4, 0] },
              [AudioEvent.PushAudioSamples 2 30 AVSampleFormat.AV_SAMPLE_FMT_S16 4
                [1, 0, 2, 0, 3, 0, 4, 0] 7]) ∧
    MixerIteration 7 (Mixer.mk0 30 [] true [1, 2, 3, 4] true)
      = some ({ Mixer.mk0 30 [] true [] true with output := [0, 1, 0, 2, 0, 3, 0, 4] },
              [AudioEvent.PushAudioSamples 2 30 AVSampleFormat.AV_SAMPLE_FMT_S16 4
                [0, 1, 0, 2, 0, 3, 0, 4] 7]) ∧
    MixerIteration 7 (Mixer.mk0 30 [1, 2, 3] true [] true)
      = some (Mixer.mk0 30 [1, 2, 3] true [] true, []) :=
  ⟨(C8_starvation_rule 7 (Mixer.mk0 30 [1, 2, 3, 4] true [] true) rfl rfl rfl rfl
      (by decide) (by decide) (by decide)).1 (by decide),
   (C8_starvation_rule 7 (Mixer.mk0 30 [] true [1, 2, 3, 4] true) rfl rfl rfl rfl
      (by decide) (by decide) (by decide)).2.1 (by decide),
   (C8_starvation_rule 7 (Mixer.mk0 30 [1, 2, 3] true [] true) rfl rfl rfl rfl
      (by decide) (by decide) (by decide)).2.2 (by decide) (by decide)⟩

/-- Counterexample to C8 as stated: both sides started, the right buffer is
empty and the left buffer holds 2^32 + 4801 samples, more than the threshold
4800; the frame has 4801 pairs, not one per buffered sample. -/
theorem C8_counterexample :
    overlongStarved.m_buffer_left.hole = false ∧ overlongStarved.m_buffer_right.hole = false ∧
    overlongStarved.m_buffer_left.started = true ∧
    overlongStarved.m_buffer_right.started = true ∧
    min overlongStarved.m_buffer_left.samples.length
      overlongStarved.m_buffer_right.samples.length = 0 ∧
    overlongStarved.m_sample_rate / 10 < overlongStarved.m_buffer_left.samples.length ∧
    overlongStarved.m_buffer_left.samples.length = 4294972097 ∧
    ∃ m data, MixerIteration 0 overlongStarved
      = some (m, [AudioEvent.PushAudioSamples 2 48000 AVSampleFormat.AV_SAMPLE_FMT_S16
          4801 data 0]) := by
  have hL : overlongStarved.m_buffer_left.samples.length = 4294972097 :=
    List.length_replicate _ _
  have hR : overlongStarved.m_buffer_right.samples.length = 0 := rfl
  have hk : toU32 overlongStarved.m_buffer_left.samples.length = 4801 := by rw [hL]; rfl
  have hlh : overlongStarved.m_buffer_left.hole = false := rfl
  have hrh : overlongStarved.m_buffer_right.hole = false := rfl
  have hls : overlongStarved.m_buffer_left.started = true := rfl
  have hrs : overlongStarved.m_buffer_right.started = true := rfl
  have hrate : overlongStarved.m_sample_rate = 48000 := rfl
  have hb : selectBranch (takeSnapshot overlongStarved) (overlongStarved.m_sample_rate / 10)
      = Branch.leftOnly := by
    have hk0 : toU32 overlongStarved.m_buffer_right.samples.length = 0 := rfl
    simp [selectBranch, takeSnapshot, hk, hk0, hlh, hrh, hls, hrs, hrate]
  exact ⟨rfl, rfl, rfl, rfl, by rw [hL, hR]; decide, by rw [hL, hrate]; decide, hL, _, _,
    MixerIteration_leftOnly_count 0 overlongStarved 4801 hk hb (by decide) (by decide)⟩

/-! ## Lemmas on runs -/

theorem leftChannel_interleave : ∀ (A B : List Int), A.length = B.length →
    leftChannel (interleave A B) = A
  | [], [], _ => rfl
  | [], _ :: _, h => by simp at h
  | _ :: _, [], h => by simp at h
  | a :: A, b :: B, h => by
    simp [interleave, leftChannel, leftChannel_interleave A B (by simpa using h)]

theorem rightChannel_interleave : ∀ (A B : List Int), A.length = B.length →
    rightChannel (interleave A B) = B
  | [], [], _ => rfl
  | [], _ :: _, h => by simp at h
  | _ :: _, [], h => by simp at h
  | a :: A, b :: B, h => by
    simp [interleave, rightChannel, rightChannel_interleave A B (by simpa using h)]

theorem interleave_append : ∀ (A B A2 B2 : List Int), A.length = B.length →
    interleave (A ++ A2) (B ++ B2) = interleave A B ++ interleave A2 B2
  | [], [], _, _, _ => by simp [interleave]
  | [], _ :: _, _, _, h => by simp at h
  | _ :: _, [], _, _, h => by simp at h
  | a :: A, b :: B, A2, B2, h => by
    simp [interleave, interleave_append A B A2 B2 (by simpa using h)]

theorem frameData_append : ∀ (e1 e2 : List AudioEvent),
    frameData (e1 ++ e2) = frameData e1 ++ frameData e2
  | [], _ => rfl
  | AudioEvent.PushAudioSamples _ _ _ _ _ _ :: e1, e2 => by
    simp [frameData, frameData_append e1 e2]
  | AudioEvent.PushAudioHole :: e1, e2 => by
    simp [frameData, frameData_append e1 e2]

theorem selectBranch_ne_gap (s : Snapshot) (thr : Nat) (hl : s.left_hole = false)
    (hr : s.right_hole = false) : selectBranch s thr ≠ Branch.gap := by
  unfold selectBranch
  simp only [hl, hr]
  split_ifs <;> simp_all

theorem selectBranch_leftOnly (s : Snapshot) (thr : Nat)
    (h : selectBranch s thr = Branch.leftOnly) : thr < s.left_count := by
  unfold selectBranch at h
  split_ifs at h <;> simp_all

theorem selectBranch_rightOnly (s : Snapshot) (thr : Nat)
    (h : selectBranch s thr = Branch.rightOnly) : thr < s.right_count := by
  unfold selectBranch at h
  split_ifs at h <;> simp_all

theorem selectBranch_both (s : Snapshot) (thr : Nat)
    (h : selectBranch s thr = Branch.both) :
    s.left_started = true ∧ s.right_started = true ∧ min s.left_count s.right_count ≠ 0 := by
  unfold selectBranch at h
  split_ifs at h
  simp_all

/-- What one hole-free iteration on buffers below 2^31 samples does, by block. -/
theorem MixerIteration_conserves (timestamp : Int) (m : Mixer)
    (hlh : m.m_buffer_left.hole = false) (hrh : m.m_buffer_right.hole = false)
    (hL : m.m_buffer_left.samples.length < 2147483648)
    (hR : m.m_buffer_right.samples.length < 2147483648) :
    ∃ m1 evs, MixerIteration timestamp m = some (m1, evs) ∧
      m.m_buffer_left.samples
        = realLeftOf (selectBranch (takeSnapshot m) (m.m_sample_rate / 10), evs)
          ++ m1.m_buffer_left.samples ∧
      m.m_buffer_right.samples
        = realRightOf (selectBranch (takeSnapshot m) (m.m_sample_rate / 10), evs)
          ++ m1.m_buffer_right.samples ∧
      m1.m_buffer_left.hole = false ∧ m1.m_buffer_right.hole = false ∧
      (selectBranch (takeSnapshot m) (m.m_sample_rate / 10) ≠ Branch.leftOnly →
        selectBranch (takeSnapshot m) (m.m_sample_rate / 10) ≠ Branch.rightOnly →
        frameData evs
          = interleave
              (realLeftOf (selectBranch (takeSnapshot m) (m.m_sample_rate / 10), evs))
              (realRightOf (selectBranch (takeSnapshot m) (m.m_sample_rate / 10), evs)) ∧
        (realLeftOf (selectBranch (takeSnapshot m) (m.m_sample_rate / 10), evs)).length
          = (realRightOf (selectBranch (takeSnapshot m) (m.m_sample_rate / 10), evs)).length) ∧
      (∀ e ∈ evs, e ≠ AudioEvent.PushAudioHole) := by
  have hu1 := toU32_of_lt (show m.m_buffer_left.samples.length < 4294967296 by omega)
  have hu2 := toU32_of_lt (show m.m_buffer_right.samples.length < 4294967296 by omega)
  cases hb : selectBranch (takeSnapshot m) (m.m_sample_rate / 10) with
  | gap => exact absurd hb (selectBranch_ne_gap _ _ hlh hrh)
  | leftOnly =>
    have hpos : 0 < m.m_buffer_left.samples.length := by
      have := selectBranch_leftOnly _ _ hb
      simp only [takeSnapshot, hu1] at this
      omega
    refine ⟨_, _, MixerIteration_leftOnly timestamp m hb hpos hL, ?_, ?_, hlh, hrh, ?_, ?_⟩
    · simp [realLeftOf, frameData, leftChannel_interleave]
    · simp [realRightOf]
    · intro h; exact absurd rfl h
    · simp
  | rightOnly =>
    have hpos : 0 < m.m_buffer_right.samples.length := by
      have := selectBranch_rightOnly _ _ hb
      simp only [takeSnapshot, hu2] at this
      omega
    refine ⟨_, _, MixerIteration_rightOnly timestamp m hb hpos hR, ?_, ?_, hlh, hrh, ?_, ?_⟩
    · simp [realLeftOf]
    · simp [realRightOf, frameData, rightChannel_interleave]
    · intro _ h; exact absurd rfl h
    · simp
  | both =>
    obtain ⟨hls, hrs, hne⟩ := selectBranch_both _ _ hb
    simp only [takeSnapshot, hu1, hu2] at hls hrs hne
    have hlen : (m.m_buffer_left.samples.take
          (min m.m_buffer_left.samples.length m.m_buffer_right.samples.length)).length
        = (m.m_buffer_right.samples.take
          (min m.m_buffer_left.samples.length m.m_buffer_right.samples.length)).length := by
      simp only [List.length_take]; omega
    refine ⟨_, _, MixerIteration_both timestamp m _ hlh hrh hls hrs (by rw [hu1, hu2])
      (by omega) (by omega), ?_, ?_, hlh, hrh, ?_, ?_⟩
    · simp [realLeftOf, frameData, leftChannel_interleave _ _ hlen]
    · simp [realRightOf, frameData, rightChannel_interleave _ _ hlen]
    · intro _ _
      simp only [realLeftOf, realRightOf, frameData, List.append_nil,
        leftChannel_interleave _ _ hlen, rightChannel_interleave _ _ hlen]
      exact ⟨trivial, hlen⟩
    · simp
  | idle =>
    refine ⟨m, [], MixerIteration_idle timestamp m hb, ?_, ?_, hlh, hrh, ?_, ?_⟩
    · simp [realLeftOf]
    · simp [realRightOf]
    · intro _ _; simp [realLeftOf, realRightOf, frameData, interleave]
    · simp

theorem length_interleave : ∀ (A B : List Int),
    (interleave A B).length = 2 * min A.length B.length
  | [], _ => by simp [interleave]
  | _ :: _, [] => by simp [interleave]
  | a :: A, b :: B => by
    simp only [interleave, List.length_cons, length_interleave A B]
    omega

/-- From empty started buffers: `n > silence_threshold` samples arrive on the
left, an iteration runs, `n` samples arrive on the right, an iteration runs. -/
theorem run_starved (rate n : Nat) (d1 d2 : Nat → Int) (t1 t2 : Int)
    (hn : rate / 10 < n) (hmax : n < 2147483648) :
    run [Op.leftSamples 1 rate AVSampleFormat.AV_SAMPLE_FMT_S16 n d1 0, Op.mix t1,
         Op.rightSamples 1 rate AVSampleFormat.AV_SAMPLE_FMT_S16 n d2 0, Op.mix t2]
        (Mixer.mk0 rate [] true [] true)
      = some ({ Mixer.mk0 rate [] true [] true with
                output := interleave (List.replicate n 0) (readSamples d2 n) },
              [(Branch.leftOnly,
                 [AudioEvent.PushAudioSamples 2 rate AVSampleFormat.AV_SAMPLE_FMT_S16 n
                   (interleave (readSamples d1 n) (List.replicate n 0)) t1]),
               (Branch.rightOnly,
                 [AudioEvent.PushAudioSamples 2 rate AVSampleFormat.AV_SAMPLE_FMT_S16 n
                   (interleave (List.replicate n 0) (readSamples d2 n)) t2])]) := by
  have hn0 : n ≠ 0 := by omega
  have hu : toU32 n = n := toU32_of_lt (by omega)
  have hnt : ¬ n ≤ rate / 10 := by omega
  -- first iteration
  have hb1 : selectBranch (takeSnapshot (Mixer.mk0 rate (readSamples d1 n) true [] true))
      (rate / 10) = Branch.leftOnly := by
    simp [selectBranch, takeSnapshot, Mixer.mk0, length_readSamples, hu, hn, toU32_of_lt]
  have e1 := MixerIteration_leftOnly t1 (Mixer.mk0 rate (readSamples d1 n) true [] true) hb1
    (by simp [Mixer.mk0, length_readSamples]; omega)
    (by simpa [Mixer.mk0, length_readSamples] using hmax)
  -- second iteration
  have hb2 : selectBranch (takeSnapshot
      { Mixer.mk0 rate [] true (readSamples d2 n) true with
        output := interleave (readSamples d1 n) (List.replicate n 0) })
      (rate / 10) = Branch.rightOnly := by
    simp [selectBranch, takeSnapshot, Mixer.mk0, length_readSamples, hu, hn, toU32_of_lt]
  have e2 := MixerIteration_rightOnly t2
    { Mixer.mk0 rate [] true (readSamples d2 n) true with
      output := interleave (readSamples d1 n) (List.replicate n 0) } hb2
    (by simp [Mixer.mk0, length_readSamples]; omega)
    (by simpa [Mixer.mk0, length_readSamples] using hmax)
  simp only [Mixer.mk0, length_readSamples] at e1 e2 hb1 hb2
  simp [run, sinkCall, ChannelSink.ReadAudioSamples, Mixer.mk0, hn0, e1, e2, hb1, hb2]

/-- The two frames of `run_starved` carry `2 n` pairs. -/
theorem length_frameData_starved (rate n : Nat) (d1 d2 : Nat → Int) (t1 t2 : Int) :
    (frameData (events
      [(Branch.leftOnly,
         [AudioEvent.PushAudioSamples 2 rate AVSampleFormat.AV_SAMPLE_FMT_S16 n
           (interleave (readSamples d1 n) (List.replicate n 0)) t1]),
       (Branch.rightOnly,
         [AudioEvent.PushAudioSamples 2 rate AVSampleFormat.AV_SAMPLE_FMT_S16 n
           (interleave (List.replicate n 0) (readSamples d2 n)) t2])])).length = 4 * n := by
  simp only [events, frameData, List.append_nil, List.length_append, length_interleave,
    length_readSamples, List.length_replicate, Nat.min_self]
  omega

/-! ## Partial construction unwind -/

/-- C10: the constructor throws exactly when a statement of its `try` block
throws, and it throws that same exception.  If the creation of the right input
is what fails, the calls made are: create the left input, disconnect the left
sink, disconnect the right sink, destroy the left input; the thread is not
started, no sink is connected and no input is owned.  After a failure at any
statement, no sink is connected, no input is owned or alive, the thread is not
joinable, and both sinks were disconnected before any input was destroyed. -/
theorem C10_construction_unwind (throws : Step → Option Nat) :
    (construct throws).2 = firstThrow throws ∧
    (∀ e, throws Step.newLeft = none → throws Step.newRight = some e →
      construct throws
        = ({ Lifecycle.init with
             trace := [Effect.newInput Side.left, Effect.connect Side.left none,
                       Effect.connect Side.right none, Effect.deleteInput Side.left] },
           some e)) ∧
    (firstThrow throws ≠ none →
      (construct throws).1.m_sink_left = none ∧ (construct throws).1.m_sink_right = none ∧
      (construct throws).1.m_input_left = false ∧ (construct throws).1.m_input_right = false ∧
      liveInput (construct throws).1.trace Side.left = false ∧
      liveInput (construct throws).1.trace Side.right = false ∧
      (construct throws).1.m_thread = false ∧
      Effect.startThread ∉ (construct throws).1.trace ∧
      ∃ before after,
        (construct throws).1.trace
          = before ++ [Effect.connect Side.left none, Effect.connect Side.right none] ++ after ∧
        (∀ side, Effect.deleteInput side ∉ before) ∧
        (∀ x ∈ after, x = Effect.deleteInput Side.left ∨ x = Effect.deleteInput Side.right)) := by
  rcases h1 : throws Step.newLeft with _ | e1
  · rcases h2 : throws Step.newRight with _ | e2
    · rcases h3 : throws Step.connectLeft with _ | e3
      · rcases h4 : throws Step.connectRight with _ | e4
        · rcases h5 : throws Step.startThread with _ | e5
          · simp [construct, tryBlock, attempt, firstThrow, h1, h2, h3, h4, h5, bind,
              Except.bind]
          · simp [construct, tryBlock, attempt, catchBlock, firstThrow, h1, h2, h3, h4, h5,
              Lifecycle.init, Lifecycle.resetNew, Lifecycle.reset, Lifecycle.get,
              Lifecycle.ConnectAudioSource, liveInput, bind, Except.bind]
            exact ⟨[Effect.newInput Side.left, Effect.newInput Side.right,
              Effect.connect Side.left (some Side.left),
              Effect.connect Side.right (some Side.right)],
              [Effect.deleteInput Side.left, Effect.deleteInput Side.right], by simp⟩
        · simp [construct, tryBlock, attempt, catchBlock, firstThrow, h1, h2, h3, h4,
            Lifecycle.init, Lifecycle.resetNew, Lifecycle.reset, Lifecycle.get,
            Lifecycle.ConnectAudioSource, liveInput, bind, Except.bind]
          exact ⟨[Effect.newInput Side.left, Effect.newInput Side.right,
            Effect.connect Side.left (some Side.left)],
            [Effect.deleteInput Side.left, Effect.deleteInput Side.right], by simp⟩
      · simp [construct, tryBlock, attempt, catchBlock, firstThrow, h1, h2, h3,
          Lifecycle.init, Lifecycle.resetNew, Lifecycle.reset, Lifecycle.get,
          Lifecycle.ConnectAudioSource, liveInput, bind, Except.bind]
        exact ⟨[Effect.newInput Side.left, Effect.newInput Side.right],
          [Effect.deleteInput Side.left, Effect.deleteInput Side.right], by simp⟩
    · simp [construct, tryBlock, attempt, catchBlock, firstThrow, h1, h2,
        Lifecycle.init, Lifecycle.resetNew, Lifecycle.reset, Lifecycle.get,
        Lifecycle.ConnectAudioSource, liveInput, bind, Except.bind]
      exact ⟨[Effect.newInput Side.left], [Effect.deleteInput Side.left], by simp⟩
  · simp [construct, tryBlock, attempt, catchBlock, firstThrow, h1,
      Lifecycle.init, Lifecycle.resetNew, Lifecycle.reset, Lifecycle.get,
      Lifecycle.ConnectAudioSource, liveInput, bind, Except.bind]
    exact ⟨[], [], by simp⟩

/-- Witness of C10: only the creation of the right input fails. -/
theorem C10_construction_unwind_witness :
    construct rightFails
      = ({ m_input_left := false, m_input_right := false, m_sink_left := none,
           m_sink_right := none, m_thread := false, m_should_stop := none,
           trace := [Effect.newInput Side.left, Effect.connect Side.left none,
                     Effect.connect Side.right none, Effect.deleteInput Side.left] },
         some 42) :=
  (C10_construction_unwind rightFails).2.1 42 rfl rfl

/-! ## Ordered start-up and teardown -/

theorem firstThrow_eq_none (throws : Step → Option Nat) (h : firstThrow throws = none) :
    throws Step.newLeft = none ∧ throws Step.newRight = none ∧
    throws Step.connectLeft = none ∧ throws Step.connectRight = none ∧
    throws Step.startThread = none := by
  unfold firstThrow at h
  cases h1 : throws Step.newLeft <;> cases h2 : throws Step.newRight <;>
    cases h3 : throws Step.connectLeft <;> cases h4 : throws Step.connectRight <;>
    cases h5 : throws Step.startThread <;> simp_all [Option.orElse]

/-- C11: when no statement of the constructor throws, the constructor creates
both inputs, then connects both sinks, then starts the mixer thread; the
destructor then signals the stop flag and joins the thread, then disconnects
both sinks, then destroys both inputs.  After every call of the whole trace a
connected sink is connected to a live input, and the thread runs only while
both sinks are connected.  No sample delivery plays a part. -/
theorem C11_ordered_lifecycle (throws : Step → Option Nat) (h : firstThrow throws = none) :
    (construct throws).2 = none ∧
    (construct throws).1.trace
      = [Effect.newInput Side.left, Effect.newInput Side.right,
         Effect.connect Side.left (some Side.left),
         Effect.connect Side.right (some Side.right), Effect.startThread] ∧
    (destruct (construct throws).1).trace
      = (construct throws).1.trace ++
        [Effect.signalStop, Effect.joinThread, Effect.connect Side.left none,
         Effect.connect Side.right none, Effect.deleteInput Side.left,
         Effect.deleteInput Side.right] ∧
    (destruct (construct throws).1).m_thread = false ∧
    (destruct (construct throws).1).m_should_stop = some true ∧
    (destruct (construct throws).1).m_input_left = false ∧
    (destruct (construct throws).1).m_input_right = false ∧
    (∀ n, safeAfter ((destruct (construct throws).1).trace.take n) = true) := by
  obtain ⟨h1, h2, h3, h4, h5⟩ := firstThrow_eq_none throws h
  have hc : construct throws = construct noThrow := by
    simp [construct, tryBlock, attempt, h1, h2, h3, h4, h5, noThrow]
  rw [hc]
  refine ⟨by decide, by decide, by decide, by decide, by decide, by decide, by decide, ?_⟩
  intro n
  rcases Nat.lt_or_ge n 12 with hn | hn
  · interval_cases n <;> decide
  · rw [List.take_of_length_le (by
      have : (destruct (construct noThrow).1).trace.length = 11 := by decide
      omega)]
    decide

/-- Witness of C11: no statement throws. -/
theorem C11_ordered_lifecycle_witness :
    (destruct (construct noThrow).1).trace
      = [Effect.newInput Side.left, Effect.newInput Side.right,
         Effect.connect Side.left (some Side.left),
         Effect.connect Side.right (some Side.right), Effect.startThread,
         Effect.signalStop, Effect.joinThread, Effect.connect Side.left none,
         Effect.connect Side.right none, Effect.deleteInput Side.left,
         Effect.deleteInput Side.right] :=
  (C11_ordered_lifecycle noThrow rfl).2.2.1

/-! ## Lock discipline -/

/-- C12 (amended): on every path through a mixer iteration and through the
sink operations, a critical section locks both mutexes (left first, then
right), or the left one alone, or the right one alone; the right mutex is never
held while the left one is being locked.  The snapshot, the hole block and the
interleave block lock both; the left silence block locks the left mutex only,
the right silence block the right one only, and a sink operation locks only
the mutex of its own buffer. -/
theorem C12_lock_discipline (s : Snapshot) (silence_threshold : Nat) (side : Side)
    (channels sample_count : Nat) :
    (∀ sec ∈ mixerLocks s silence_threshold ++
        ChannelSink.ReadAudioSamplesLocks side channels sample_count ++
        ChannelSink.ReadAudioHoleLocks side,
      (sec = [Side.left, Side.right] ∨ sec = [Side.left] ∨ sec = [Side.right]) ∧
      sec.Pairwise (fun a b => a = Side.left ∧ b = Side.right)) ∧
    (mixerLocks s silence_threshold).head? = some [Side.left, Side.right] ∧
    (selectBranch s silence_threshold = Branch.gap ∨
      selectBranch s silence_threshold = Branch.both →
      mixerLocks s silence_threshold = [[Side.left, Side.right], [Side.left, Side.right]]) ∧
    (selectBranch s silence_threshold = Branch.leftOnly →
      mixerLocks s silence_threshold = [[Side.left, Side.right], [Side.left]]) ∧
    (selectBranch s silence_threshold = Branch.rightOnly →
      mixerLocks s silence_threshold = [[Side.left, Side.right], [Side.right]]) ∧
    (selectBranch s silence_threshold = Branch.idle →
      mixerLocks s silence_threshold = [[Side.left, Side.right]]) ∧
    (∀ sec ∈ ChannelSink.ReadAudioSamplesLocks side channels sample_count ++
        ChannelSink.ReadAudioHoleLocks side, sec = [side]) := by
  refine ⟨?_, rfl, ?_, ?_, ?_, ?_, ?_⟩
  · by_cases hc : channels ≠ 1 ∨ sample_count = 0 <;>
      cases side <;> cases hb : selectBranch s silence_threshold <;>
      simp only [mixerLocks, ChannelSink.ReadAudioSamplesLocks,
        ChannelSink.ReadAudioHoleLocks, hb, hc, if_true, if_false] <;>
      decide
  · rintro (h | h) <;> simp [mixerLocks, h]
  · intro h; simp [mixerLocks, h]
  · intro h; simp [mixerLocks, h]
  · intro h; simp [mixerLocks, h]
  · by_cases hc : channels ≠ 1 ∨ sample_count = 0 <;>
      simp [ChannelSink.ReadAudioSamplesLocks, ChannelSink.ReadAudioHoleLocks, hc]

/-- Counterexample to C12 as stated: `ReadAudioHole` of the left sink holds the
left mutex without the right one, an accepted `ReadAudioSamples` of the right
sink holds the right mutex without the left one, and the left silence block of
an iteration (30 Hz, four samples on the only side that has started) holds the
left mutex alone. -/
theorem C12_counterexample :
    ChannelSink.ReadAudioHoleLocks Side.left = [[Side.left]] ∧
    ChannelSink.ReadAudioSamplesLocks Side.right 1 1 = [[Side.right]] ∧
    mixerLocks (takeSnapshot (Mixer.mk0 30 [1, 2, 3, 4] true [] false)) (30 / 10)
      = [[Side.left, Side.right], [Side.left]] ∧
    ¬ (∀ sec ∈ ChannelSink.ReadAudioHoleLocks Side.left,
        Side.left ∈ sec → Side.right ∈ sec) := by
  decide

/-! ## Lemmas on iterations that return -/

theorem store_length (v : List Int) (i : Nat) (x : Int) (w : List Int)
    (h : store v i x = some w) : w.length = v.length := by
  unfold store at h
  split_ifs at h
  simp only [Option.some.injEq] at h
  rw [← h, List.length_set]

theorem fillOutput_length (l r : Nat → Option Int) : ∀ (n i : Nat) (out w : List Int),
    fillOutput l r n i out = some w → w.length = out.length
  | 0, _, out, w, h => by
    simp only [fillOutput, Option.some.injEq] at h
    rw [h]
  | n + 1, i, out, w, h => by
    simp only [fillOutput, Option.bind_eq_bind, Option.bind_eq_some] at h
    obtain ⟨x, _, o1, h1, y, _, o2, h2, h3⟩ := h
    rw [fillOutput_length l r n _ o2 w h3, store_length _ _ _ _ h2, store_length _ _ _ _ h1]

theorem outputLeftWithSilence_some (timestamp : Int) (m : Mixer) (r : Mixer × List AudioEvent)
    (h : outputLeftWithSilence timestamp m = some r) :
    r = (m, []) ∨
    ∃ out, out.length = toU32 (toU32 m.m_buffer_left.samples.length * 2) ∧
      0 < toU32 m.m_buffer_left.samples.length ∧
      r = ({ m with
             m_buffer_left := { m.m_buffer_left with samples := [] }
             output := out },
           [AudioEvent.PushAudioSamples 2 m.m_sample_rate AVSampleFormat.AV_SAMPLE_FMT_S16
             (toU32 m.m_buffer_left.samples.length) out timestamp]) := by
  unfold outputLeftWithSilence at h
  simp only at h
  split_ifs at h with hc
  · simp only [Option.bind_eq_bind, Option.bind_eq_some, Option.some.injEq] at h
    obtain ⟨out, hf, hr⟩ := h
    exact Or.inr ⟨out, by rw [fillOutput_length _ _ _ _ _ _ hf, length_resize], hc, hr.symm⟩
  · simp only [Option.some.injEq] at h
    exact Or.inl h.symm

theorem outputRightWithSilence_some (timestamp : Int) (m : Mixer) (r : Mixer × List AudioEvent)
    (h : outputRightWithSilence timestamp m = some r) :
    r = (m, []) ∨
    ∃ out, out.length = toU32 (toU32 m.m_buffer_right.samples.length * 2) ∧
      0 < toU32 m.m_buffer_right.samples.length ∧
      r = ({ m with
             m_buffer_right := { m.m_buffer_right with samples := [] }
             output := out },
           [AudioEvent.PushAudioSamples 2 m.m_sample_rate AVSampleFormat.AV_SAMPLE_FMT_S16
             (toU32 m.m_buffer_right.samples.length) out timestamp]) := by
  unfold outputRightWithSilence at h
  simp only at h
  split_ifs at h with hc
  · simp only [Option.bind_eq_bind, Option.bind_eq_some, Option.some.injEq] at h
    obtain ⟨out, hf, hr⟩ := h
    exact Or.inr ⟨out, by rw [fillOutput_length _ _ _ _ _ _ hf, length_resize], hc, hr.symm⟩
  · simp only [Option.some.injEq] at h
    exact Or.inl h.symm

theorem interleaveBoth_some (timestamp : Int) (m : Mixer) (r : Mixer × List AudioEvent)
    (h : interleaveBoth timestamp m = some r) :
    r = (m, []) ∨
    ∃ out, out.length = toU32 (min (toU32 m.m_buffer_left.samples.length)
        (toU32 m.m_buffer_right.samples.length) * 2) ∧
      0 < min (toU32 m.m_buffer_left.samples.length) (toU32 m.m_buffer_right.samples.length) ∧
      r = ({ m with
             m_buffer_left :=
               { m.m_buffer_left with
                 samples := m.m_buffer_left.samples.drop
                   (min (toU32 m.m_buffer_left.samples.length)
                     (toU32 m.m_buffer_right.samples.length)) }
             m_buffer_right :=
               { m.m_buffer_right with
                 samples := m.m_buffer_right.samples.drop
                   (min (toU32 m.m_buffer_left.samples.length)
                     (toU32 m.m_buffer_right.samples.length)) }
             output := out },
           [AudioEvent.PushAudioSamples 2 m.m_sample_rate AVSampleFormat.AV_SAMPLE_FMT_S16
             (min (toU32 m.m_buffer_left.samples.length)
               (toU32 m.m_buffer_right.samples.length)) out timestamp]) := by
  unfold interleaveBoth at h
  simp only at h
  split_ifs at h with hc
  · simp only [Option.some.injEq] at h
    exact Or.inl h.symm
  · simp only [Option.bind_eq_bind, Option.bind_eq_some, Option.some.injEq] at h
    obtain ⟨out, hf, hr⟩ := h
    exact Or.inr ⟨out, by rw [fillOutput_length _ _ _ _ _ _ hf, length_resize],
      Nat.pos_of_ne_zero hc, hr.symm⟩

/-- The shape of every result of an iteration: either the hole block ran, or
each buffer lost a head segment and at most one frame was pushed. -/
theorem MixerIteration_some (timestamp : Int) (m m1 : Mixer) (evs : List AudioEvent)
    (h : MixerIteration timestamp m = some (m1, evs)) :
    m1.m_sample_rate = m.m_sample_rate ∧
    ((m1.m_buffer_left = { samples := [], started := false, hole := false } ∧
      m1.m_buffer_right = { samples := [], started := false, hole := false } ∧
      evs = [AudioEvent.PushAudioHole]) ∨
     ((∃ k, m1.m_buffer_left
          = { m.m_buffer_left with samples := m.m_buffer_left.samples.drop k }) ∧
      (∃ k, m1.m_buffer_right
          = { m.m_buffer_right with samples := m.m_buffer_right.samples.drop k }) ∧
      (evs = [] ∨
        ∃ count data,
          evs = [AudioEvent.PushAudioSamples 2 m.m_sample_rate
            AVSampleFormat.AV_SAMPLE_FMT_S16 count data timestamp] ∧
          1 ≤ count ∧ data.length = toU32 (count * 2)))) := by
  rw [MixerIteration_eq] at h
  have keep : ∀ b : ChannelBuffer, b = { b with samples := b.samples.drop 0 } := fun b => rfl
  have clear : ∀ b : ChannelBuffer,
      ({ b with samples := [] } : ChannelBuffer)
        = { b with samples := b.samples.drop b.samples.length } := fun b => by
    simp
  cases hb : selectBranch (takeSnapshot m) (m.m_sample_rate / 10) <;> rw [hb] at h <;>
    simp only at h
  · simp only [Option.some.injEq, Prod.mk.injEq] at h
    obtain ⟨h1, h2⟩ := h
    subst h1 h2
    exact ⟨rfl, Or.inl ⟨rfl, rfl, rfl⟩⟩
  · rcases outputLeftWithSilence_some _ _ _ h with hr | ⟨out, ho, hp, hr⟩
    · simp only [Prod.mk.injEq] at hr
      obtain ⟨h1, h2⟩ := hr
      subst h1 h2
      exact ⟨rfl, Or.inr ⟨⟨0, keep _⟩, ⟨0, keep _⟩, Or.inl rfl⟩⟩
    · simp only [Prod.mk.injEq] at hr
      obtain ⟨h1, h2⟩ := hr
      subst h1 h2
      exact ⟨rfl, Or.inr ⟨⟨_, clear _⟩, ⟨0, keep _⟩, Or.inr ⟨_, out, rfl, hp, ho⟩⟩⟩
  · rcases outputRightWithSilence_some _ _ _ h with hr | ⟨out, ho, hp, hr⟩
    · simp only [Prod.mk.injEq] at hr
      obtain ⟨h1, h2⟩ := hr
      subst h1 h2
      exact ⟨rfl, Or.inr ⟨⟨0, keep _⟩, ⟨0, keep _⟩, Or.inl rfl⟩⟩
    · simp only [Prod.mk.injEq] at hr
      obtain ⟨h1, h2⟩ := hr
      subst h1 h2
      exact ⟨rfl, Or.inr ⟨⟨0, keep _⟩, ⟨_, clear _⟩, Or.inr ⟨_, out, rfl, hp, ho⟩⟩⟩
  · rcases interleaveBoth_some _ _ _ h with hr | ⟨out, ho, hp, hr⟩
    · simp only [Prod.mk.injEq] at hr
      obtain ⟨h1, h2⟩ := hr
      subst h1 h2
      exact ⟨rfl, Or.inr ⟨⟨0, keep _⟩, ⟨0, keep _⟩, Or.inl rfl⟩⟩
    · simp only [Prod.mk.injEq] at hr
      obtain ⟨h1, h2⟩ := hr
      subst h1 h2
      exact ⟨rfl, Or.inr ⟨⟨_, rfl⟩, ⟨_, rfl⟩, Or.inr ⟨_, out, rfl, hp, ho⟩⟩⟩
  · simp only [Option.some.injEq, Prod.mk.injEq] at h
    obtain ⟨h1, h2⟩ := h
    subst h1 h2
    exact ⟨rfl, Or.inr ⟨⟨0, keep _⟩, ⟨0, keep _⟩, Or.inl rfl⟩⟩

theorem MixerIteration_defined (timestamp : Int) (m : Mixer)
    (hL : toU32 m.m_buffer_left.samples.length < 2147483648)
    (hR : toU32 m.m_buffer_right.samples.length < 2147483648) :
    ∃ m1 evs, MixerIteration timestamp m = some (m1, evs) := by
  rw [MixerIteration_eq]
  cases selectBranch (takeSnapshot m) (m.m_sample_rate / 10) <;> simp only
  · exact ⟨_, _, rfl⟩
  · rcases Nat.eq_zero_or_pos (toU32 m.m_buffer_left.samples.length) with h0 | hpos
    · exact ⟨m, [], by simp [outputLeftWithSilence, h0]⟩
    · exact ⟨_, _, outputLeftWithSilence_eq timestamp m hpos hL⟩
  · rcases Nat.eq_zero_or_pos (toU32 m.m_buffer_right.samples.length) with h0 | hpos
    · exact ⟨m, [], by simp [outputRightWithSilence, h0]⟩
    · exact ⟨_, _, outputRightWithSilence_eq timestamp m hpos hR⟩
  · rcases Nat.eq_zero_or_pos (min (toU32 m.m_buffer_left.samples.length)
        (toU32 m.m_buffer_right.samples.length)) with h0 | hpos
    · exact ⟨m, [], by simp only [interleaveBoth, h0, if_true]⟩
    · exact ⟨_, _, interleaveBoth_eq timestamp m _ rfl hpos (by omega)⟩
  · exact ⟨_, _, rfl⟩

/-! ## At most one downstream call -/

/-- C15: whenever a mixer iteration returns, it has made at most one
downstream call, `PushAudioHole` or one `PushAudioSamples`; a pushed frame has
`sample_count >= 1`, two channels, the configured sample rate, format S16, and,
for `sample_count < 2^31`, a data array of exactly `2 * sample_count` samples.
The iteration returns whenever both buffer sizes, read as `unsigned int`, are
below 2^31. -/
theorem C15_at_most_one (timestamp : Int) (m : Mixer) :
    (∀ m1 evs, MixerIteration timestamp m = some (m1, evs) →
      evs.length ≤ 1 ∧
      ∀ e ∈ evs, e = AudioEvent.PushAudioHole ∨
        ∃ count data,
          e = AudioEvent.PushAudioSamples 2 m.m_sample_rate AVSampleFormat.AV_SAMPLE_FMT_S16
            count data timestamp ∧
          1 ≤ count ∧ (count < 2147483648 → data.length = 2 * count)) ∧
    (toU32 m.m_buffer_left.samples.length < 2147483648 →
      toU32 m.m_buffer_right.samples.length < 2147483648 →
      ∃ m1 evs, MixerIteration timestamp m = some (m1, evs)) := by
  refine ⟨fun m1 evs h => ?_, MixerIteration_defined timestamp m⟩
  obtain ⟨_, hs⟩ := MixerIteration_some timestamp m m1 evs h
  rcases hs with ⟨_, _, he⟩ | ⟨_, _, he | ⟨count, data, he, hc, hd⟩⟩
  · subst he
    exact ⟨by simp, fun e hmem => Or.inl (by simpa using hmem)⟩
  · subst he
    exact ⟨by simp, fun e hmem => by simp at hmem⟩
  · subst he
    refine ⟨by simp, fun e hmem => Or.inr ⟨count, data, by simpa using hmem, hc, fun hlt => ?_⟩⟩
    rw [hd, toU32_of_lt (by omega)]
    omega

/-- Witness of C15: an interleave at 48 kHz. -/
theorem C15_at_most_one_witness :
    MixerIteration 7 (Mixer.mk0 48000 [1, 2, 3] true [4, 5] true)
      = some ({ Mixer.mk0 48000 [3] true [] true with output := [1, 4, 2, 5] },
          [AudioEvent.PushAudioSamples 2 48000 AVSampleFormat.AV_SAMPLE_FMT_S16 2
            [1, 4, 2, 5] 7]) ∧
    [AudioEvent.PushAudioSamples 2 48000 AVSampleFormat.AV_SAMPLE_FMT_S16 2
        [1, 4, 2, 5] 7].length ≤ 1 :=
  ⟨by decide,
   ((C15_at_most_one 7 (Mixer.mk0 48000 [1, 2, 3] true [4, 5] true)).1
      { Mixer.mk0 48000 [3] true [] true with output := [1, 4, 2, 5] }
      [AudioEvent.PushAudioSamples 2 48000 AVSampleFormat.AV_SAMPLE_FMT_S16 2 [1, 4, 2, 5] 7]
      (by decide)).1⟩

/-! ## Started invariant -/

theorem ReadAudioSamples_startedInv (b : ChannelBuffer) (channels sample_rate : Nat)
    (format : AVSampleFormat) (sample_count : Nat) (data : Nat → Int) (timestamp : Int)
    (h : b.startedInv) :
    (ChannelSink.ReadAudioSamples b channels sample_rate format sample_count data
      timestamp).startedInv := by
  unfold ChannelSink.ReadAudioSamples
  simp only
  split_ifs
  · exact h
  · intro hs
    simp at hs

theorem ReadAudioHole_startedInv (b : ChannelBuffer) (h : b.startedInv) :
    (ChannelSink.ReadAudioHole b).startedInv := h

theorem sinkCall_startedInv (m : Mixer) (op : Op) (h : m.startedInv) :
    (sinkCall m op).startedInv := by
  cases op with
  | leftSamples c r f n d t => exact ⟨ReadAudioSamples_startedInv _ c r f n d t h.1, h.2⟩
  | rightSamples c r f n d t => exact ⟨h.1, ReadAudioSamples_startedInv _ c r f n d t h.2⟩
  | leftHole => exact ⟨ReadAudioHole_startedInv _ h.1, h.2⟩
  | rightHole => exact ⟨h.1, ReadAudioHole_startedInv _ h.2⟩
  | mix t => exact h

theorem MixerIteration_startedInv (timestamp : Int) (m m1 : Mixer) (evs : List AudioEvent)
    (h : m.startedInv) (hr : MixerIteration timestamp m = some (m1, evs)) :
    m1.startedInv := by
  obtain ⟨_, hs⟩ := MixerIteration_some timestamp m m1 evs hr
  rcases hs with ⟨hl, hr, _⟩ | ⟨⟨k1, hl⟩, ⟨k2, hr⟩, _⟩
  · rw [Mixer.startedInv, hl, hr]
    exact ⟨fun _ => rfl, fun _ => rfl⟩
  · rw [Mixer.startedInv, hl, hr]
    refine ⟨fun hs => ?_, fun hs => ?_⟩
    · show List.drop k1 m.m_buffer_left.samples = []
      rw [h.1 hs, List.drop_nil]
    · show List.drop k2 m.m_buffer_right.samples = []
      rw [h.2 hs, List.drop_nil]

theorem run_startedInv : ∀ (ops : List Op) (m0 m : Mixer) (tr : List (Branch × List AudioEvent)),
    m0.startedInv → run ops m0 = some (m, tr) →
    m.startedInv ∧ m.m_sample_rate = m0.m_sample_rate
  | [], m0, m, tr, h, hr => by
    simp only [run, Option.some.injEq, Prod.mk.injEq] at hr
    rw [← hr.1]
    exact ⟨h, rfl⟩
  | Op.mix t :: ops, m0, m, tr, h, hr => by
    simp only [run, Option.bind_eq_bind, Option.bind_eq_some] at hr
    obtain ⟨r, h1, rest, h2, _⟩ := hr
    have h3 := run_startedInv ops r.1 rest.1 rest.2
      (MixerIteration_startedInv t m0 r.1 r.2 h h1) h2
    have h4 := (MixerIteration_some t m0 r.1 r.2 h1).1
    simp_all
  | Op.leftSamples c r f n d t :: ops, m0, m, tr, h, hr => by
    have h3 := run_startedInv ops (sinkCall m0 (Op.leftSamples c r f n d t)) m tr
      (sinkCall_startedInv m0 _ h) (by simpa [run] using hr)
    exact ⟨h3.1, h3.2⟩
  | Op.rightSamples c r f n d t :: ops, m0, m, tr, h, hr => by
    have h3 := run_startedInv ops (sinkCall m0 (Op.rightSamples c r f n d t)) m tr
      (sinkCall_startedInv m0 _ h) (by simpa [run] using hr)
    exact ⟨h3.1, h3.2⟩
  | Op.leftHole :: ops, m0, m, tr, h, hr => by
    have h3 := run_startedInv ops (sinkCall m0 Op.leftHole) m tr
      (sinkCall_startedInv m0 _ h) (by simpa [run] using hr)
    exact ⟨h3.1, h3.2⟩
  | Op.rightHole :: ops, m0, m, tr, h, hr => by
    have h3 := run_startedInv ops (sinkCall m0 Op.rightHole) m tr
      (sinkCall_startedInv m0 _ h) (by simpa [run] using hr)
    exact ⟨h3.1, h3.2⟩

theorem Reachable.startedInv (m : Mixer) (h : Reachable m) : m.startedInv := by
  obtain ⟨ops, tr, hr⟩ := h
  exact (run_startedInv ops _ m tr ⟨fun _ => rfl, fun _ => rfl⟩ hr).1

/-- C16: a buffer whose started flag is false holds no sample in every state
reached from the initial one by `ReadAudioSamples`, `ReadAudioHole` and mixer
iterations; each of the three operations preserves this, and the initial state
has it. -/
theorem C16_started_invariant :
    (∀ (b : ChannelBuffer) (channels sample_rate : Nat) (format : AVSampleFormat)
        (sample_count : Nat) (data : Nat → Int) (timestamp : Int),
      (b.started = false → b.samples = []) →
      (ChannelSink.ReadAudioSamples b channels sample_rate format sample_count data
          timestamp).started = false →
      (ChannelSink.ReadAudioSamples b channels sample_rate format sample_count data
          timestamp).samples = []) ∧
    (∀ b : ChannelBuffer, (b.started = false → b.samples = []) →
      (ChannelSink.ReadAudioHole b).started = false →
      (ChannelSink.ReadAudioHole b).samples = []) ∧
    (∀ (timestamp : Int) (m m1 : Mixer) (evs : List AudioEvent),
      m.startedInv → MixerIteration timestamp m = some (m1, evs) → m1.startedInv) ∧
    (∀ sample_rate, (Mixer.init sample_rate).startedInv) ∧
    (∀ m, Reachable m →
      (m.m_buffer_left.started = false → m.m_buffer_left.samples = []) ∧
      (m.m_buffer_right.started = false → m.m_buffer_right.samples = []) ∧
      (m.m_buffer_left.samples ≠ [] → m.m_buffer_left.started = true) ∧
      (m.m_buffer_right.samples ≠ [] → m.m_buffer_right.started = true)) := by
  refine ⟨fun b c r f n d t h => ReadAudioSamples_startedInv b c r f n d t h,
    fun b h => ReadAudioHole_startedInv b h,
    fun t m m1 evs h hr => MixerIteration_startedInv t m m1 evs h hr,
    fun _ => ⟨fun _ => rfl, fun _ => rfl⟩, fun m hm => ?_⟩
  obtain ⟨h1, h2⟩ := Reachable.startedInv m hm
  refine ⟨h1, h2, fun hne => ?_, fun hne => ?_⟩
  · cases hs : m.m_buffer_left.started
    · exact absurd (h1 hs) hne
    · rfl
  · cases hs : m.m_buffer_right.started
    · exact absurd (h2 hs) hne
    · rfl

/-- Witness of C16: three samples reach the left sink, then a hole is notified
on the right and the mixer iterates; the state reached has two empty buffers
that have not started. -/
theorem C16_started_invariant_witness :
    run [Op.leftSamples 1 48000 AVSampleFormat.AV_SAMPLE_FMT_S16 3 (fun i => 1 + i) 0,
         Op.rightHole, Op.mix 5] (Mixer.init 48000)
      = some (Mixer.init 48000, [(Branch.gap, [AudioEvent.PushAudioHole])]) ∧
    ((Mixer.init 48000).m_buffer_left.started = false →
      (Mixer.init 48000).m_buffer_left.samples = []) :=
  ⟨by decide,
   (C16_started_invariant.2.2.2.2 (Mixer.init 48000)
      ⟨[Op.leftSamples 1 48000 AVSampleFormat.AV_SAMPLE_FMT_S16 3 (fun i => 1 + i) 0,
         Op.rightHole, Op.mix 5], [(Branch.gap, [AudioEvent.PushAudioHole])], by decide⟩).1⟩

/-! ## Lemmas on iterations from bounded states -/

theorem selectBranch_gap_spec (s : Snapshot) (thr : Nat)
    (h : selectBranch s thr = Branch.gap) : s.left_hole = true ∨ s.right_hole = true := by
  unfold selectBranch at h
  split_ifs at h with h1
  simpa using h1

theorem selectBranch_leftOnly_spec (s : Snapshot) (thr : Nat)
    (h : selectBranch s thr = Branch.leftOnly) :
    s.left_hole = false ∧ s.right_hole = false ∧ thr < s.left_count ∧
    (s.right_started = false ∨ s.right_count = 0) := by
  unfold selectBranch at h
  split_ifs at h with h1 h2 h3 h4 h5 h6 <;> simp_all
  omega

theorem selectBranch_rightOnly_spec (s : Snapshot) (thr : Nat)
    (h : selectBranch s thr = Branch.rightOnly) :
    s.left_hole = false ∧ s.right_hole = false ∧ thr < s.right_count ∧
    (s.left_started = false ∨ s.left_count = 0) := by
  unfold selectBranch at h
  split_ifs at h with h1 h2 h3 h4 h5 h6 <;> simp_all
  omega

theorem selectBranch_both_spec (s : Snapshot) (thr : Nat)
    (h : selectBranch s thr = Branch.both) :
    s.left_hole = false ∧ s.right_hole = false ∧ s.left_started = true ∧
    s.right_started = true ∧ 0 < min s.left_count s.right_count := by
  unfold selectBranch at h
  split_ifs at h with h1 h2 h3 h4 h5 h6
  simp_all
  constructor <;> omega

theorem selectBranch_idle_spec (s : Snapshot) (thr : Nat)
    (h : selectBranch s thr = Branch.idle) :
    s.left_hole = false ∧ s.right_hole = false ∧
    (s.left_started = true → s.left_count ≤ thr) ∧
    (s.right_started = true → s.right_count ≤ thr) ∧
    (s.left_started = false ∨ s.right_started = false ∨ s.left_count = 0 ∨
      s.right_count = 0) := by
  unfold selectBranch at h
  split_ifs at h with h1 h2 h3 h4 h5 h6 <;> simp_all
  first | omega | tauto

/-- The five ways an iteration can go from a state that satisfies the started
invariant and whose buffers hold fewer than 2^31 samples. -/
theorem MixerIteration_cases (timestamp : Int) (m : Mixer) (hinv : m.startedInv)
    (hL : m.m_buffer_left.samples.length < 2147483648)
    (hR : m.m_buffer_right.samples.length < 2147483648) :
    ∃ m1 evs, MixerIteration timestamp m = some (m1, evs) ∧
      m1.m_sample_rate = m.m_sample_rate ∧
      (((m.m_buffer_left.hole = true ∨ m.m_buffer_right.hole = true) ∧
          m1.m_buffer_left = { samples := [], started := false, hole := false } ∧
          m1.m_buffer_right = { samples := [], started := false, hole := false } ∧
          evs = [AudioEvent.PushAudioHole]) ∨
       (m.m_buffer_left.hole = false ∧ m.m_buffer_right.hole = false ∧
          m.m_sample_rate / 10 < m.m_buffer_left.samples.length ∧
          m.m_buffer_right.samples = [] ∧
          m1.m_buffer_left = { m.m_buffer_left with samples := [] } ∧
          m1.m_buffer_right = m.m_buffer_right ∧
          ∃ data, evs = [AudioEvent.PushAudioSamples 2 m.m_sample_rate
            AVSampleFormat.AV_SAMPLE_FMT_S16 m.m_buffer_left.samples.length data timestamp]) ∨
       (m.m_buffer_left.hole = false ∧ m.m_buffer_right.hole = false ∧
          m.m_sample_rate / 10 < m.m_buffer_right.samples.length ∧
          m.m_buffer_left.samples = [] ∧
          m1.m_buffer_left = m.m_buffer_left ∧
          m1.m_buffer_right = { m.m_buffer_right with samples := [] } ∧
          ∃ data, evs = [AudioEvent.PushAudioSamples 2 m.m_sample_rate
            AVSampleFormat.AV_SAMPLE_FMT_S16 m.m_buffer_right.samples.length data timestamp]) ∨
       (m.m_buffer_left.hole = false ∧ m.m_buffer_right.hole = false ∧
          0 < min m.m_buffer_left.samples.length m.m_buffer_right.samples.length ∧
          m1.m_buffer_left = { m.m_buffer_left with
            samples := m.m_buffer_left.samples.drop
              (min m.m_buffer_left.samples.length m.m_buffer_right.samples.length) } ∧
          m1.m_buffer_right = { m.m_buffer_right with
            samples := m.m_buffer_right.samples.drop
              (min m.m_buffer_left.samples.length m.m_buffer_right.samples.length) } ∧
          ∃ data, evs = [AudioEvent.PushAudioSamples 2 m.m_sample_rate
            AVSampleFormat.AV_SAMPLE_FMT_S16
            (min m.m_buffer_left.samples.length m.m_buffer_right.samples.length) data
            timestamp]) ∨
       (m.m_buffer_left.hole = false ∧ m.m_buffer_right.hole = false ∧
          m.m_buffer_left.samples.length ≤ m.m_sample_rate / 10 ∧
          m.m_buffer_right.samples.length ≤ m.m_sample_rate / 10 ∧
          (m.m_buffer_left.samples = [] ∨ m.m_buffer_right.samples = []) ∧
          m1 = m ∧ evs = [])) := by
  have hu1 := toU32_of_lt (show m.m_buffer_left.samples.length < 4294967296 by omega)
  have hu2 := toU32_of_lt (show m.m_buffer_right.samples.length < 4294967296 by omega)
  obtain ⟨i1, i2⟩ := hinv
  have e1 : m.m_buffer_left.started = false → m.m_buffer_left.samples.length = 0 :=
    fun h => by rw [i1 h]; rfl
  have e2 : m.m_buffer_right.started = false → m.m_buffer_right.samples.length = 0 :=
    fun h => by rw [i2 h]; rfl
  cases hb : selectBranch (takeSnapshot m) (m.m_sample_rate / 10) with
  | gap =>
    have hc := selectBranch_gap_spec _ _ hb
    exact ⟨{ m with
              m_buffer_left := { samples := [], started := false, hole := false }
              m_buffer_right := { samples := [], started := false, hole := false } },
      [AudioEvent.PushAudioHole], by rw [MixerIteration_eq, hb], rfl,
      Or.inl ⟨hc, rfl, rfl, rfl⟩⟩
  | leftOnly =>
    obtain ⟨c1, c2, c3, c4⟩ := selectBranch_leftOnly_spec _ _ hb
    simp only [takeSnapshot, hu1, hu2] at c1 c2 c3 c4
    have c5 : m.m_buffer_right.samples.length = 0 := c4.elim e2 id
    exact ⟨_, _, MixerIteration_leftOnly timestamp m hb (by omega) hL, rfl,
      Or.inr (Or.inl ⟨c1, c2, c3, List.length_eq_zero.mp c5, rfl, rfl, _, rfl⟩)⟩
  | rightOnly =>
    obtain ⟨c1, c2, c3, c4⟩ := selectBranch_rightOnly_spec _ _ hb
    simp only [takeSnapshot, hu1, hu2] at c1 c2 c3 c4
    have c5 : m.m_buffer_left.samples.length = 0 := c4.elim e1 id
    exact ⟨_, _, MixerIteration_rightOnly timestamp m hb (by omega) hR, rfl,
      Or.inr (Or.inr (Or.inl ⟨c1, c2, c3, List.length_eq_zero.mp c5, rfl, rfl, _, rfl⟩))⟩
  | both =>
    obtain ⟨c1, c2, c3, c4, c5⟩ := selectBranch_both_spec _ _ hb
    simp only [takeSnapshot, hu1, hu2] at c1 c2 c3 c4 c5
    exact ⟨_, _, MixerIteration_both timestamp m _ c1 c2 c3 c4 (by rw [hu1, hu2]) c5
        (by omega), rfl,
      Or.inr (Or.inr (Or.inr (Or.inl ⟨c1, c2, c5, rfl, rfl, _, rfl⟩)))⟩
  | idle =>
    obtain ⟨c1, c2, c3, c4, c5⟩ := selectBranch_idle_spec _ _ hb
    simp only [takeSnapshot, hu1, hu2] at c1 c2 c3 c4 c5
    have c6 : m.m_buffer_left.samples.length ≤ m.m_sample_rate / 10 := by
      cases hs : m.m_buffer_left.started
      · rw [e1 hs]; exact Nat.zero_le _
      · exact c3 hs
    have c7 : m.m_buffer_right.samples.length ≤ m.m_sample_rate / 10 := by
      cases hs : m.m_buffer_right.started
      · rw [e2 hs]; exact Nat.zero_le _
      · exact c4 hs
    have c8 : m.m_buffer_left.samples = [] ∨ m.m_buffer_right.samples = [] := by
      rcases c5 with h | h | h | h
      · exact Or.inl (i1 h)
      · exact Or.inr (i2 h)
      · exact Or.inl (List.length_eq_zero.mp h)
      · exact Or.inr (List.length_eq_zero.mp h)
    exact ⟨m, [], MixerIteration_idle timestamp m hb, rfl,
      Or.inr (Or.inr (Or.inr (Or.inr ⟨c1, c2, c6, c7, c8, rfl, rfl⟩)))⟩

/-! ## Lemmas on the overlong deliveries -/

theorem run_two_left (rate n1 n2 : Nat) (d : Nat → Int) (ops : List Op)
    (h1 : n1 ≠ 0) (h2 : n2 ≠ 0) :
    run (Op.leftSamples 1 rate AVSampleFormat.AV_SAMPLE_FMT_S16 n1 d 0 ::
         Op.leftSamples 1 rate AVSampleFormat.AV_SAMPLE_FMT_S16 n2 d 0 :: ops) (Mixer.init rate)
      = run ops (Mixer.mk0 rate (readSamples d n1 ++ readSamples d n2) true [] false) := by
  simp [run, sinkCall, ChannelSink.ReadAudioSamples, Mixer.init, Mixer.mk0, ChannelBuffer.new,
    h1, h2]

theorem run_right (rate n : Nat) (d : Nat → Int) (ops : List Op) (L : List Int)
    (h : n ≠ 0) :
    run (Op.rightSamples 1 rate AVSampleFormat.AV_SAMPLE_FMT_S16 n d 0 :: ops)
        (Mixer.mk0 rate L true [] false)
      = run ops (Mixer.mk0 rate L true (readSamples d n) true) := by
  simp [run, sinkCall, ChannelSink.ReadAudioSamples, Mixer.mk0, h]

theorem length_two_blocks (d : Nat → Int) (n1 n2 : Nat) :
    (readSamples d n1 ++ readSamples d n2).length = n1 + n2 := by
  rw [List.length_append, length_readSamples, length_readSamples]

/-- A warm-up state whose left size, read as `unsigned int`, does not exceed
the threshold, is idle. -/
theorem selectBranch_warmup_idle (rate : Nat) (L : List Int)
    (h : toU32 L.length ≤ rate / 10) :
    selectBranch (takeSnapshot (Mixer.mk0 rate L true [] false)) (rate / 10) = Branch.idle := by
  have h2 : ¬ rate / 10 < toU32 L.length := by omega
  simp [selectBranch, takeSnapshot, Mixer.mk0, h2]

theorem run_idle_twice (m : Mixer) (t1 t2 : Int)
    (hb : selectBranch (takeSnapshot m) (m.m_sample_rate / 10) = Branch.idle) :
    run [Op.mix t1, Op.mix t2] m = some (m, [(Branch.idle, []), (Branch.idle, [])]) := by
  simp [run, MixerIteration_idle _ m hb, hb]

theorem overlongIdle_length : overlongIdle.m_buffer_left.samples.length = 4294967301 :=
  length_two_blocks _ _ _

theorem overlongIdle_idle :
    selectBranch (takeSnapshot overlongIdle) (overlongIdle.m_sample_rate / 10) = Branch.idle :=
  selectBranch_warmup_idle 48000 _ (by
    rw [length_two_blocks]
    decide)

theorem overlongIdle_reachable : Reachable overlongIdle :=
  ⟨overlongDelivery, [], by
    show run overlongDelivery (Mixer.init 48000) = some (overlongIdle, [])
    rw [overlongDelivery, run_two_left 48000 4294967295 6 _ _ (by decide) (by decide)]
    rfl⟩

theorem overlongPairState_reachable : Reachable overlongPairState :=
  ⟨overlongPair, [], by
    show run overlongPair (Mixer.init 48000) = some (overlongPairState, [])
    rw [overlongPair, run_two_left 48000 4294967295 2 _ _ (by decide) (by decide),
      run_right 48000 3 _ _ _ (by decide)]
    rfl⟩

/-- What an interleave leaves in the buffers. -/
theorem MixerIteration_both_rest (timestamp : Int) (m : Mixer) (k : Nat)
    (hlh : m.m_buffer_left.hole = false) (hrh : m.m_buffer_right.hole = false)
    (hls : m.m_buffer_left.started = true) (hrs : m.m_buffer_right.started = true)
    (hk : k = min (toU32 m.m_buffer_left.samples.length) (toU32 m.m_buffer_right.samples.length))
    (hpos : 0 < k) (hmax : k < 2147483648) :
    ∃ m1 evs, MixerIteration timestamp m = some (m1, evs) ∧
      m1.m_buffer_left.samples.length = m.m_buffer_left.samples.length - k ∧
      m1.m_buffer_right.samples.length = m.m_buffer_right.samples.length - k :=
  ⟨_, _, MixerIteration_both timestamp m k hlh hrh hls hrs hk hpos hmax,
    List.length_drop _ _, List.length_drop _ _⟩

/-! ## One side is always drained -/

/-- C17 (amended): from every reachable state whose buffers hold fewer than
2^31 samples each, a mixer iteration returns and leaves at least one of the two
buffers empty, `min(|L|, |R|) = 0`. -/
theorem C17_one_side_drained (timestamp : Int) (m : Mixer) (hreach : Reachable m)
    (hL : m.m_buffer_left.samples.length < 2147483648)
    (hR : m.m_buffer_right.samples.length < 2147483648) :
    ∃ m1 evs, MixerIteration timestamp m = some (m1, evs) ∧
      (m1.m_buffer_left.samples = [] ∨ m1.m_buffer_right.samples = []) ∧
      min m1.m_buffer_left.samples.length m1.m_buffer_right.samples.length = 0 := by
  obtain ⟨m1, evs, h, _, hc⟩ :=
    MixerIteration_cases timestamp m (Reachable.startedInv m hreach) hL hR
  have key : m1.m_buffer_left.samples = [] ∨ m1.m_buffer_right.samples = [] := by
    rcases hc with ⟨_, h1, _, _⟩ | ⟨_, _, _, _, h1, _, _⟩ | ⟨_, _, _, _, _, h2, _⟩ |
      ⟨_, _, _, h1, h2, _⟩ | ⟨_, _, _, _, h1, h2, _⟩
    · rw [h1]; exact Or.inl rfl
    · rw [h1]; exact Or.inl rfl
    · rw [h2]; exact Or.inr rfl
    · rw [h1, h2]
      rcases Nat.le_total m.m_buffer_left.samples.length m.m_buffer_right.samples.length
        with hle | hle
      · exact Or.inl (by simp [Nat.min_eq_left hle])
      · exact Or.inr (by simp [Nat.min_eq_right hle])
    · rw [h2]; exact h1
  refine ⟨m1, evs, h, key, ?_⟩
  rcases key with k | k <;> simp [k]

/-- Witness of C17: at 30 Hz, six samples on the left and one on the right. -/
theorem C17_one_side_drained_witness :
    run surplusDelivery (Mixer.init 30) = some (Mixer.mk0 30 [1, 2, 3, 4, 5, 6] true [9] true, []) ∧
    ∃ m1 evs, MixerIteration 7 (Mixer.mk0 30 [1, 2, 3, 4, 5, 6] true [9] true)
        = some (m1, evs) ∧
      (m1.m_buffer_left.samples = [] ∨ m1.m_buffer_right.samples = []) ∧
      min m1.m_buffer_left.samples.length m1.m_buffer_right.samples.length = 0 :=
  ⟨by decide,
   C17_one_side_drained 7 (Mixer.mk0 30 [1, 2, 3, 4, 5, 6] true [9] true)
     ⟨surplusDelivery, [], by decide⟩ (by decide) (by decide)⟩

/-- Counterexample to C17 as stated: at 48 kHz the left sink receives 2^32 - 1
samples and then two more, the right sink three.  In the state reached the
left size is read as 1, so the iteration interleaves one pair and leaves 2^32
samples on the left and two on the right. -/
theorem C17_counterexample :
    Reachable overlongPairState ∧
    ∃ m1 evs, MixerIteration 0 overlongPairState = some (m1, evs) ∧
      m1.m_buffer_left.samples.length = 4294967296 ∧
      m1.m_buffer_right.samples.length = 2 ∧
      min m1.m_buffer_left.samples.length m1.m_buffer_right.samples.length ≠ 0 := by
  have hL : overlongPairState.m_buffer_left.samples.length = 4294967297 :=
    length_two_blocks _ _ _
  have hR : overlongPairState.m_buffer_right.samples.length = 3 := length_readSamples _ _
  obtain ⟨m1, evs, h, h1, h2⟩ := MixerIteration_both_rest 0 overlongPairState 1 rfl rfl rfl rfl
    (by rw [hL, hR]; decide) (by decide) (by decide)
  rw [hL] at h1
  rw [hR] at h2
  refine ⟨overlongPairState_reachable, m1, evs, h, h1, h2, ?_⟩
  rw [h1, h2]
  decide

/-! ## Over-threshold always emits -/

/-- C18 (amended): from every reachable state whose buffers hold fewer than
2^31 samples each, a mixer iteration returns; if the left or the right buffer
holds more than `silence_threshold` samples, it makes a downstream call,
`PushAudioHole` if a hole flag is set and one stereo frame otherwise; and if it
makes no downstream call, then no hole flag was set and both buffers hold at
most `silence_threshold` samples. -/
theorem C18_over_threshold_emits (timestamp : Int) (m : Mixer) (hreach : Reachable m)
    (hL : m.m_buffer_left.samples.length < 2147483648)
    (hR : m.m_buffer_right.samples.length < 2147483648) :
    ∃ m1 evs, MixerIteration timestamp m = some (m1, evs) ∧
      ((m.m_sample_rate / 10 < m.m_buffer_left.samples.length ∨
          m.m_sample_rate / 10 < m.m_buffer_right.samples.length) →
        ((m.m_buffer_left.hole = true ∨ m.m_buffer_right.hole = true) →
          evs = [AudioEvent.PushAudioHole]) ∧
        (m.m_buffer_left.hole = false → m.m_buffer_right.hole = false →
          ∃ count data, evs = [AudioEvent.PushAudioSamples 2 m.m_sample_rate
            AVSampleFormat.AV_SAMPLE_FMT_S16 count data timestamp])) ∧
      (evs = [] →
        m.m_buffer_left.hole = false ∧ m.m_buffer_right.hole = false ∧
        m.m_buffer_left.samples.length ≤ m.m_sample_rate / 10 ∧
        m.m_buffer_right.samples.length ≤ m.m_sample_rate / 10) := by
  obtain ⟨m1, evs, h, _, hc⟩ :=
    MixerIteration_cases timestamp m (Reachable.startedInv m hreach) hL hR
  refine ⟨m1, evs, h, ?_, ?_⟩
  · intro hover
    rcases hc with ⟨_, _, _, he⟩ | ⟨c1, c2, _, _, _, _, d, he⟩ | ⟨c1, c2, _, _, _, _, d, he⟩ |
      ⟨c1, c2, _, _, _, d, he⟩ | ⟨c1, c2, c3, c4, _, _, _⟩
    · exact ⟨fun _ => he, fun a b => by rcases ‹_ ∨ _› with x | x <;> simp_all⟩
    · exact ⟨fun hh => by rcases hh with x | x <;> simp_all, fun _ _ => ⟨_, d, he⟩⟩
    · exact ⟨fun hh => by rcases hh with x | x <;> simp_all, fun _ _ => ⟨_, d, he⟩⟩
    · exact ⟨fun hh => by rcases hh with x | x <;> simp_all, fun _ _ => ⟨_, d, he⟩⟩
    · omega
  · intro hnil
    rcases hc with ⟨_, _, _, he⟩ | ⟨_, _, _, _, _, _, d, he⟩ | ⟨_, _, _, _, _, _, d, he⟩ |
      ⟨_, _, _, _, _, d, he⟩ | ⟨c1, c2, c3, c4, _, _, _⟩
    · rw [he] at hnil; exact absurd hnil (by simp)
    · rw [he] at hnil; exact absurd hnil (by simp)
    · rw [he] at hnil; exact absurd hnil (by simp)
    · rw [he] at hnil; exact absurd hnil (by simp)
    · exact ⟨c1, c2, c3, c4⟩

/-- Witness of C18: at 30 Hz (threshold 3), six samples on the left and one on
the right. -/
theorem C18_over_threshold_emits_witness :
    ∃ m1 evs, MixerIteration 7 (Mixer.mk0 30 [1, 2, 3, 4, 5, 6] true [9] true)
        = some (m1, evs) ∧
      ((30 / 10 < 6 ∨ 30 / 10 < 1) →
        ((false = true ∨ false = true) → evs = [AudioEvent.PushAudioHole]) ∧
        (false = false → false = false →
          ∃ count data, evs = [AudioEvent.PushAudioSamples 2 30
            AVSampleFormat.AV_SAMPLE_FMT_S16 count data 7])) ∧
      (evs = [] → false = false ∧ false = false ∧ 6 ≤ 30 / 10 ∧ 1 ≤ 30 / 10) :=
  C18_over_threshold_emits 7 (Mixer.mk0 30 [1, 2, 3, 4, 5, 6] true [9] true)
    ⟨surplusDelivery, [], by decide⟩ (by decide) (by decide)

/-- Counterexample to C18 as stated: at 48 kHz the left sink receives 2^32 - 1
samples and then six more.  The state reached holds 2^32 + 5 samples on the
left, more than the threshold 4800, and no hole is pending; the size is read as
5, and the iteration makes no downstream call. -/
theorem C18_counterexample :
    Reachable overlongIdle ∧
    overlongIdle.m_buffer_left.hole = false ∧ overlongIdle.m_buffer_right.hole = false ∧
    overlongIdle.m_buffer_left.samples.length = 4294967301 ∧
    overlongIdle.m_sample_rate / 10 < overlongIdle.m_buffer_left.samples.length ∧
    MixerIteration 0 overlongIdle = some (overlongIdle, []) := by
  refine ⟨overlongIdle_reachable, rfl, rfl, overlongIdle_length, ?_,
    MixerIteration_idle 0 overlongIdle overlongIdle_idle⟩
  rw [overlongIdle_length]
  decide

/-! ## Bounded buffering -/

/-- After one iteration from a bounded state with the started invariant: no
hole is pending and one buffer is empty. -/
theorem MixerIteration_settles (timestamp : Int) (m : Mixer) (hinv : m.startedInv)
    (hL : m.m_buffer_left.samples.length < 2147483648)
    (hR : m.m_buffer_right.samples.length < 2147483648) :
    ∃ m1 evs, MixerIteration timestamp m = some (m1, evs) ∧
      m1.m_sample_rate = m.m_sample_rate ∧ m1.startedInv ∧
      m1.m_buffer_left.hole = false ∧ m1.m_buffer_right.hole = false ∧
      (m1.m_buffer_left.samples = [] ∨ m1.m_buffer_right.samples = []) ∧
      m1.m_buffer_left.samples.length ≤ m.m_buffer_left.samples.length ∧
      m1.m_buffer_right.samples.length ≤ m.m_buffer_right.samples.length := by
  obtain ⟨m1, evs, h, hrate, hc⟩ := MixerIteration_cases timestamp m hinv hL hR
  refine ⟨m1, evs, h, hrate, MixerIteration_startedInv timestamp m m1 evs hinv h, ?_⟩
  rcases hc with ⟨_, h1, h2, _⟩ | ⟨c1, c2, _, c4, h1, h2, _⟩ | ⟨c1, c2, _, c4, h1, h2, _⟩ |
    ⟨c1, c2, _, h1, h2, _⟩ | ⟨c1, c2, _, _, c5, h1, _⟩
  · rw [h1, h2]; simp
  · rw [h1, h2]; simp [c1, c2]
  · rw [h1, h2]; simp [c1, c2]
  · rw [h1, h2]
    refine ⟨c1, c2, ?_, by simp, by simp⟩
    rcases Nat.le_total m.m_buffer_left.samples.length m.m_buffer_right.samples.length
      with hle | hle
    · exact Or.inl (by simp [Nat.min_eq_left hle])
    · exact Or.inr (by simp [Nat.min_eq_right hle])
  · rw [h1]; exact ⟨c1, c2, c5, Nat.le_refl _, Nat.le_refl _⟩

/-- After one more iteration: both buffers within the threshold. -/
theorem MixerIteration_settled (timestamp : Int) (m : Mixer) (hinv : m.startedInv)
    (hL : m.m_buffer_left.samples.length < 2147483648)
    (hR : m.m_buffer_right.samples.length < 2147483648)
    (hlh : m.m_buffer_left.hole = false) (hrh : m.m_buffer_right.hole = false)
    (hemp : m.m_buffer_left.samples = [] ∨ m.m_buffer_right.samples = []) :
    ∃ m1 evs, MixerIteration timestamp m = some (m1, evs) ∧
      m1.m_buffer_left.samples.length ≤ m.m_sample_rate / 10 ∧
      m1.m_buffer_right.samples.length ≤ m.m_sample_rate / 10 := by
  obtain ⟨m1, evs, h, _, hc⟩ := MixerIteration_cases timestamp m hinv hL hR
  refine ⟨m1, evs, h, ?_⟩
  rcases hc with ⟨hh, _⟩ | ⟨_, _, _, c4, h1, h2, _⟩ | ⟨_, _, _, c4, h1, h2, _⟩ |
    ⟨_, _, c3, _⟩ | ⟨_, _, c3, c4, _, h1, _⟩
  · rcases hh with x | x
    · rw [hlh] at x; exact absurd x (by decide)
    · rw [hrh] at x; exact absurd x (by decide)
  · rw [h1, h2, c4]; simp
  · rw [h1, h2, c4]; simp
  · rcases hemp with x | x <;> rw [x] at c3 <;> simp at c3
  · rw [h1]; exact ⟨c3, c4⟩

/-- C13 (amended): from every reachable state whose buffers hold fewer than
2^31 samples each, two mixer iterations in a row with no sink call in between
return and leave at most `silence_threshold = sample_rate / 10` samples in each
buffer.  One iteration is not enough: at 30 Hz (threshold 3), with six samples
on the left and one on the right, an interleave leaves the surplus of five
samples on the left. -/
theorem C13_bounded_buffering (t1 t2 : Int) (m : Mixer) (hreach : Reachable m)
    (hL : m.m_buffer_left.samples.length < 2147483648)
    (hR : m.m_buffer_right.samples.length < 2147483648) :
    (∃ m2 tr, run [Op.mix t1, Op.mix t2] m = some (m2, tr) ∧
      m2.m_buffer_left.samples.length ≤ m.m_sample_rate / 10 ∧
      m2.m_buffer_right.samples.length ≤ m.m_sample_rate / 10) ∧
    (Reachable (Mixer.mk0 30 [1, 2, 3, 4, 5, 6] true [9] true) ∧
      MixerIteration t1 (Mixer.mk0 30 [1, 2, 3, 4, 5, 6] true [9] true)
        = some ({ Mixer.mk0 30 [2, 3, 4, 5, 6] true [] true with output := [1, 9] },
            [AudioEvent.PushAudioSamples 2 30 AVSampleFormat.AV_SAMPLE_FMT_S16 1 [1, 9] t1]) ∧
      30 / 10 < [2, 3, 4, 5, 6].length) := by
  constructor
  · obtain ⟨m1, evs1, h1, hrate, hinv1, hlh, hrh, hemp, l1, l2⟩ :=
      MixerIteration_settles t1 m (Reachable.startedInv m hreach) hL hR
    obtain ⟨m2, evs2, h2, b1, b2⟩ :=
      MixerIteration_settled t2 m1 hinv1 (by omega) (by omega) hlh hrh hemp
    rw [hrate] at b1 b2
    exact ⟨m2, [(selectBranch (takeSnapshot m) (m.m_sample_rate / 10), evs1),
        (selectBranch (takeSnapshot m1) (m1.m_sample_rate / 10), evs2)],
      by simp [run, h1, h2], b1, b2⟩
  · refine ⟨⟨surplusDelivery, [], by decide⟩, ?_, by decide⟩
    exact MixerIteration_both t1 (Mixer.mk0 30 [1, 2, 3, 4, 5, 6] true [9] true) 1
      rfl rfl rfl rfl (by decide) (by decide) (by decide)

/-- Witness of C13: the state with the surplus of the interleave; the second
iteration pads the five samples with silence. -/
theorem C13_bounded_buffering_witness :
    run [Op.mix 7, Op.mix 8] (Mixer.mk0 30 [1, 2, 3, 4, 5, 6] true [9] true)
      = some ({ Mixer.mk0 30 [] true [] true with
                output := [2, 0, 3, 0, 4, 0, 5, 0, 6, 0] },
          [(Branch.both,
             [AudioEvent.PushAudioSamples 2 30 AVSampleFormat.AV_SAMPLE_FMT_S16 1 [1, 9] 7]),
           (Branch.leftOnly,
             [AudioEvent.PushAudioSamples 2 30 AVSampleFormat.AV_SAMPLE_FMT_S16 5
               [2, 0, 3, 0, 4, 0, 5, 0, 6, 0] 8])]) ∧
    ∃ m2 tr, run [Op.mix 7, Op.mix 8] (Mixer.mk0 30 [1, 2, 3, 4, 5, 6] true [9] true)
        = some (m2, tr) ∧
      m2.m_buffer_left.samples.length ≤ 30 / 10 ∧
      m2.m_buffer_right.samples.length ≤ 30 / 10 :=
  ⟨by decide,
   (C13_bounded_buffering 7 8 (Mixer.mk0 30 [1, 2, 3, 4, 5, 6] true [9] true)
     ⟨surplusDelivery, [], by decide⟩ (by decide) (by decide)).1⟩

/-- Counterexample to C13 as stated: at 48 kHz the left sink receives 2^32 - 1
samples and then six more; the size of the left buffer is read as 5, below the
threshold 4800, so two iterations in a row do nothing and the buffer still
holds 2^32 + 5 samples. -/
theorem C13_counterexample :
    Reachable overlongIdle ∧
    run [Op.mix 0, Op.mix 0] overlongIdle
      = some (overlongIdle, [(Branch.idle, []), (Branch.idle, [])]) ∧
    overlongIdle.m_buffer_left.samples.length = 4294967301 ∧
    ¬ overlongIdle.m_buffer_left.samples.length ≤ overlongIdle.m_sample_rate / 10 := by
  refine ⟨overlongIdle_reachable, run_idle_twice overlongIdle 0 0 overlongIdle_idle,
    overlongIdle_length, ?_⟩
  rw [overlongIdle_length]
  decide

/-! ## Sizes are re-read under the lock -/

/-- C14 (amended): the frame is sized by the buffers as they are when the
action takes its locks, whatever the sizes in the snapshot were.  For a
snapshot that selects the interleave block and buffers `L'`, `R'` of fewer
than 2^32 samples at lock time with `min(|L'|, |R'|) < 2^31`: nothing is
emitted or removed if the minimum is 0, and otherwise the frame has
`min(|L'|, |R'|)` pairs `(L'[k], R'[k])` and that many samples are removed from
the head of both buffers.  For a snapshot that selects the left silence block
and fewer than 2^31 samples in `L'`: the frame has one pair `(L'[k], 0)` per
sample of `L'` and the left buffer is emptied (nothing happens if `L'` is
empty); symmetrically on the right. -/
theorem C14_sizes_reread (s : Snapshot) (timestamp : Int) (m : Mixer) :
    (selectBranch s (m.m_sample_rate / 10) = Branch.both →
      m.m_buffer_left.samples.length < 4294967296 →
      m.m_buffer_right.samples.length < 4294967296 →
      min m.m_buffer_left.samples.length m.m_buffer_right.samples.length < 2147483648 →
      (min m.m_buffer_left.samples.length m.m_buffer_right.samples.length = 0 →
        mixerAction s timestamp m = some (m, [])) ∧
      (0 < min m.m_buffer_left.samples.length m.m_buffer_right.samples.length →
        mixerAction s timestamp m
          = some ({ m with
                    m_buffer_left :=
                      { m.m_buffer_left with
                        samples := m.m_buffer_left.samples.drop
                          (min m.m_buffer_left.samples.length
                            m.m_buffer_right.samples.length) }
                    m_buffer_right :=
                      { m.m_buffer_right with
                        samples := m.m_buffer_right.samples.drop
                          (min m.m_buffer_left.samples.length
                            m.m_buffer_right.samples.length) }
                    output := interleave
                      (m.m_buffer_left.samples.take
                        (min m.m_buffer_left.samples.length m.m_buffer_right.samples.length))
                      (m.m_buffer_right.samples.take
                        (min m.m_buffer_left.samples.length
                          m.m_buffer_right.samples.length)) },
                  [AudioEvent.PushAudioSamples 2 m.m_sample_rate
                    AVSampleFormat.AV_SAMPLE_FMT_S16
                    (min m.m_buffer_left.samples.length m.m_buffer_right.samples.length)
                    (interleave
                      (m.m_buffer_left.samples.take
                        (min m.m_buffer_left.samples.length m.m_buffer_right.samples.length))
                      (m.m_buffer_right.samples.take
                        (min m.m_buffer_left.samples.length
                          m.m_buffer_right.samples.length)))
                    timestamp]))) ∧
    (selectBranch s (m.m_sample_rate / 10) = Branch.leftOnly →
      m.m_buffer_left.samples.length < 2147483648 →
      (m.m_buffer_left.samples = [] → mixerAction s timestamp m = some (m, [])) ∧
      (m.m_buffer_left.samples ≠ [] →
        mixerAction s timestamp m
          = some ({ m with
                    m_buffer_left := { m.m_buffer_left with samples := [] }
                    output := interleave m.m_buffer_left.samples
                      (List.replicate m.m_buffer_left.samples.length 0) },
                  [AudioEvent.PushAudioSamples 2 m.m_sample_rate
                    AVSampleFormat.AV_SAMPLE_FMT_S16 m.m_buffer_left.samples.length
                    (interleave m.m_buffer_left.samples
                      (List.replicate m.m_buffer_left.samples.length 0))
                    timestamp]))) ∧
    (selectBranch s (m.m_sample_rate / 10) = Branch.rightOnly →
      m.m_buffer_right.samples.length < 2147483648 →
      (m.m_buffer_right.samples = [] → mixerAction s timestamp m = some (m, [])) ∧
      (m.m_buffer_right.samples ≠ [] →
        mixerAction s timestamp m
          = some ({ m with
                    m_buffer_right := { m.m_buffer_right with samples := [] }
                    output := interleave (List.replicate m.m_buffer_right.samples.length 0)
                      m.m_buffer_right.samples },
                  [AudioEvent.PushAudioSamples 2 m.m_sample_rate
                    AVSampleFormat.AV_SAMPLE_FMT_S16 m.m_buffer_right.samples.length
                    (interleave (List.replicate m.m_buffer_right.samples.length 0)
                      m.m_buffer_right.samples)
                    timestamp]))) := by
  refine ⟨fun hb hL hR hmin => ?_, fun hb hL => ?_, fun hb hR => ?_⟩
  · have hu1 := toU32_of_lt hL
    have hu2 := toU32_of_lt hR
    rw [mixerAction_eq, hb]
    refine ⟨fun h0 => ?_, fun hpos => ?_⟩
    · simp only [interleaveBoth, hu1, hu2, h0, if_true]
    · exact interleaveBoth_eq timestamp m _ (by rw [hu1, hu2]) hpos hmin
  · have hu := toU32_of_lt (show m.m_buffer_left.samples.length < 4294967296 by omega)
    rw [mixerAction_eq, hb]
    refine ⟨fun h0 => ?_, fun hne => ?_⟩
    · simp [outputLeftWithSilence, h0, toU32]
    · have h := outputLeftWithSilence_eq timestamp m
        (by rw [hu]; exact List.length_pos.mpr hne) (by rw [hu]; exact hL)
      rw [hu, List.take_length] at h
      exact h
  · have hu := toU32_of_lt (show m.m_buffer_right.samples.length < 4294967296 by omega)
    rw [mixerAction_eq, hb]
    refine ⟨fun h0 => ?_, fun hne => ?_⟩
    · simp [outputRightWithSilence, h0, toU32]
    · have h := outputRightWithSilence_eq timestamp m
        (by rw [hu]; exact List.length_pos.mpr hne) (by rw [hu]; exact hR)
      rw [hu, List.take_length] at h
      exact h

/-- Witness of C14: the snapshot sees one sample on each side; when the locks
are taken again the buffers hold three and two samples, and the frame has two
pairs. -/
theorem C14_sizes_reread_witness :
    (takeSnapshot (Mixer.mk0 48000 [1] true [7] true)).left_count = 1 ∧
    (takeSnapshot (Mixer.mk0 48000 [1] true [7] true)).right_count = 1 ∧
    mixerAction (takeSnapshot (Mixer.mk0 48000 [1] true [7] true)) 5
        (Mixer.mk0 48000 [1, 2, 3] true [7, 8] true)
      = some ({ Mixer.mk0 48000 [3] true [] true with output := [1, 7, 2, 8] },
          [AudioEvent.PushAudioSamples 2 48000 AVSampleFormat.AV_SAMPLE_FMT_S16 2
            [1, 7, 2, 8] 5]) :=
  ⟨rfl, rfl,
   ((C14_sizes_reread (takeSnapshot (Mixer.mk0 48000 [1] true [7] true)) 5
      (Mixer.mk0 48000 [1, 2, 3] true [7, 8] true)).1
      (by decide) (by decide) (by decide) (by decide)).2 (by decide)⟩

/-- Counterexample to C14 as stated: the snapshot sees one sample on each side
and selects the interleave block; when the locks are taken again the left
buffer holds 2^32 + 1 samples and the right buffer three, so the minimum is 3,
but the left size is read as 1 and the frame has one pair. -/
theorem C14_counterexample :
    selectBranch (takeSnapshot (Mixer.mk0 48000 [0] true [7] true))
      (overlongBoth.m_sample_rate / 10) = Branch.both ∧
    min overlongBoth.m_buffer_left.samples.length overlongBoth.m_buffer_right.samples.length
      = 3 ∧
    (mixerAction (takeSnapshot (Mixer.mk0 48000 [0] true [7] true)) 0 overlongBoth).map
        Prod.snd
      = some [AudioEvent.PushAudioSamples 2 48000 AVSampleFormat.AV_SAMPLE_FMT_S16 1 [0, 7] 0] := by
  have hL : overlongBoth.m_buffer_left.samples.length = 4294967297 := List.length_replicate _ _
  have hR : overlongBoth.m_buffer_right.samples.length = 3 := rfl
  have hb : selectBranch (takeSnapshot (Mixer.mk0 48000 [0] true [7] true))
      (overlongBoth.m_sample_rate / 10) = Branch.both := by decide
  refine ⟨hb, by rw [hL, hR]; decide, ?_⟩
  rw [mixerAction_eq, hb]
  simp only
  rw [interleaveBoth_eq 0 overlongBoth 1 (by rw [hL, hR]; decide) (by decide) (by decide)]
  rfl

/-! ## PageDone: the list of recordings -/

theorem AddRecording_files (fileName : String → String) (p : PageDone) (file : String) :
    (PageDone.AddRecording fileName p file).m_recording_files
      = if file = "" ∨ file ∈ p.m_recording_files then p.m_recording_files
        else p.m_recording_files ++ [file] := by
  unfold PageDone.AddRecording
  by_cases h1 : file = "" <;> by_cases h3 : file ∈ p.m_recording_files <;> simp [h1, h3]

theorem addAll_append (fileName : String → String) (p : PageDone) (files : List String)
    (file : String) :
    PageDone.addAll fileName p (files ++ [file])
      = PageDone.AddRecording fileName (PageDone.addAll fileName p files) file := by
  simp [PageDone.addAll, List.foldl_append]

/-- The files after a sequence of calls from the empty page: the non-empty
names in the order of their first occurrence. -/
theorem addAll_files (fileName : String → String) : ∀ files : List String,
    (PageDone.addAll fileName PageDone.new files).m_recording_files
      = ((files.filter (fun f => f ≠ "")).reverse.dedup).reverse := by
  intro files
  induction files using List.reverseRecOn with
  | nil => rfl
  | append_singleton files file ih =>
    rw [addAll_append, AddRecording_files, ih]
    by_cases h1 : file = ""
    · simp [h1, List.filter_append]
    · by_cases h2 : file ∈ files
      · have h3 : file ∈ (List.filter (fun f => decide (f ≠ "")) files).reverse := by
          simp [List.mem_filter, h1, h2]
        simp [h1, h2, List.filter_append, List.dedup_cons_of_mem h3]
      · have h3 : file ∉ (List.filter (fun f => decide (f ≠ "")) files).reverse := by
          simp [List.mem_filter, h2]
        simp [h1, h2, List.filter_append, List.dedup_cons_of_not_mem h3]

/-- C19: `AddRecording` leaves the page unchanged when the file name is empty
or already in the list of recording files, and otherwise appends the file name
at the end of the list (and an item for it at the end of the list widget,
which becomes the current item).  From the empty page, after any sequence of
calls the list holds no empty string and no file name twice, and it is the
sequence of the non-empty names in the order of their first occurrence; and
calling `AddRecording` twice with one name gives the same page as calling it
once. -/
theorem C19_recordings_no_duplicates (fileName : String → String) (p : PageDone)
    (file : String) (files : List String) :
    (file = "" ∨ file ∈ p.m_recording_files → PageDone.AddRecording fileName p file = p) ∧
    (file ≠ "" → file ∉ p.m_recording_files →
      PageDone.AddRecording fileName p file
        = { m_recording_files := p.m_recording_files ++ [file]
            items := p.items ++ [{ text := fileName file, file := file }]
            currentRow := some p.items.length }) ∧
    "" ∉ (PageDone.addAll fileName PageDone.new files).m_recording_files ∧
    (PageDone.addAll fileName PageDone.new files).m_recording_files.Nodup ∧
    (∀ f, f ∈ (PageDone.addAll fileName PageDone.new files).m_recording_files
      ↔ f ∈ files ∧ f ≠ "") ∧
    (PageDone.addAll fileName PageDone.new files).m_recording_files
      = ((files.filter (fun f => f ≠ "")).reverse.dedup).reverse ∧
    PageDone.AddRecording fileName (PageDone.AddRecording fileName p file) file
      = PageDone.AddRecording fileName p file := by
  have hmem : ∀ f, f ∈ (PageDone.addAll fileName PageDone.new files).m_recording_files
      ↔ f ∈ files ∧ f ≠ "" := by
    intro f
    rw [addAll_files]
    simp [List.mem_filter]
  refine ⟨fun h => ?_, fun h1 h2 => ?_, ?_, ?_, hmem, addAll_files fileName files, ?_⟩
  · unfold PageDone.AddRecording
    rcases h with h | h
    · simp [h]
    · by_cases h1 : file = "" <;> simp [h1, h]
  · unfold PageDone.AddRecording
    simp [h1, h2]
  · intro h
    exact ((hmem "").mp h).2 rfl
  · rw [addAll_files]
    exact List.nodup_reverse.mpr (List.nodup_dedup _)
  · by_cases h1 : file = ""
    · simp [PageDone.AddRecording, h1]
    · by_cases h2 : file ∈ p.m_recording_files
      · simp [PageDone.AddRecording, h1, h2]
      · simp [PageDone.AddRecording, h1, h2]

/-- Witness of C19: a name, the empty name, a second name, the first name
again. -/
theorem C19_recordings_no_duplicates_witness :
    (PageDone.addAll id PageDone.new ["a.mkv", "", "b.mkv", "a.mkv"]).m_recording_files
      = ["a.mkv", "b.mkv"] ∧
    PageDone.AddRecording id
        (PageDone.addAll id PageDone.new ["a.mkv", "", "b.mkv", "a.mkv"]) "a.mkv"
      = PageDone.addAll id PageDone.new ["a.mkv", "", "b.mkv", "a.mkv"] :=
  ⟨by decide,
   (C19_recordings_no_duplicates id
      (PageDone.addAll id PageDone.new ["a.mkv", "", "b.mkv", "a.mkv"]) "a.mkv" []).1
      (Or.inr (by decide))⟩

/-! ## Lemmas on runs without hole notifications -/

theorem store_some_lt (v : List Int) (i : Nat) (x : Int) (w : List Int)
    (h : store v i x = some w) : i < v.length := by
  unfold store at h
  split_ifs at h with hc
  exact hc

/-- A loop that returns has written inside the vector: pair `i + j` lies within
it, for every pair that is reached before the index computation wraps. -/
theorem fillOutput_inbounds (l r : Nat → Option Int) : ∀ (n i : Nat) (out w : List Int),
    fillOutput l r n i out = some w →
    ∀ j, j < n → i + j < 2147483648 → 2 * (i + j) + 1 < out.length
  | 0, _, _, _, _, j, hj, _ => absurd hj (Nat.not_lt_zero j)
  | n + 1, i, out, w, h, j, hj, hi => by
    simp only [fillOutput, Option.bind_eq_bind, Option.bind_eq_some] at h
    obtain ⟨x, _, o1, h1, y, _, o2, h2, h3⟩ := h
    have l1 := store_length _ _ _ _ h1
    have l2 := store_length _ _ _ _ h2
    cases j with
    | zero =>
      have hidx : toU32 (toU32 (i * 2) + 1) = 2 * i + 1 := by
        rw [toU32_of_lt (show i * 2 < 4294967296 by omega), toU32_of_lt (by omega)]
        omega
      have := store_some_lt _ _ _ _ h2
      rw [hidx, l1] at this
      simpa using this
    | succ j =>
      have hnext : toU32 (i + 1) = i + 1 := toU32_of_lt (by omega)
      rw [hnext] at h3
      have := fillOutput_inbounds l r n (i + 1) o2 w h3 j (by omega) (by omega)
      rw [l2, l1] at this
      have e : i + (j + 1) = i + 1 + j := by omega
      rw [e]
      exact this

/-- A loop over `n` pairs that returns on a vector resized to `n * 2` as
`unsigned int` has `n < 2^31`. -/
theorem fillOutput_some_bound (l r : Nat → Option Int) (n : Nat) (out w : List Int)
    (h : fillOutput l r n 0 (resize out (toU32 (n * 2))) = some w) (hn : n < 4294967296) :
    n < 2147483648 := by
  by_contra hge
  have hb := fillOutput_inbounds l r n 0 _ w h 2147483647 (by omega) (by omega)
  rw [length_resize] at hb
  have := toU32_lt (n * 2)
  omega

theorem interleaveBoth_some_eq (timestamp : Int) (m : Mixer) (r : Mixer × List AudioEvent)
    (h : interleaveBoth timestamp m = some r) :
    (min (toU32 m.m_buffer_left.samples.length) (toU32 m.m_buffer_right.samples.length) = 0 ∧
      r = (m, [])) ∨
    (0 < min (toU32 m.m_buffer_left.samples.length) (toU32 m.m_buffer_right.samples.length) ∧
      min (toU32 m.m_buffer_left.samples.length) (toU32 m.m_buffer_right.samples.length)
        < 2147483648) := by
  unfold interleaveBoth at h
  simp only at h
  split_ifs at h with hc
  · simp only [Option.some.injEq] at h
    exact Or.inl ⟨hc, h.symm⟩
  · simp only [Option.bind_eq_bind, Option.bind_eq_some] at h
    obtain ⟨out, hf, _⟩ := h
    have hlt : min (toU32 m.m_buffer_left.samples.length)
        (toU32 m.m_buffer_right.samples.length) < 4294967296 := by
      have := toU32_lt m.m_buffer_left.samples.length
      omega
    exact Or.inr ⟨Nat.pos_of_ne_zero hc, fillOutput_some_bound _ _ _ _ _ hf hlt⟩

/-- What an iteration that returns does when no hole is pending: it sets no
hole flag and pushes no hole, and unless it ran a silence block its frame pairs
the samples that it removed from the heads of the two buffers. -/
theorem MixerIteration_pairs (timestamp : Int) (m m1 : Mixer) (evs : List AudioEvent)
    (hlh : m.m_buffer_left.hole = false) (hrh : m.m_buffer_right.hole = false)
    (h : MixerIteration timestamp m = some (m1, evs)) :
    m1.m_buffer_left.hole = false ∧ m1.m_buffer_right.hole = false ∧
    (∀ e ∈ evs, e ≠ AudioEvent.PushAudioHole) ∧
    (selectBranch (takeSnapshot m) (m.m_sample_rate / 10) ≠ Branch.leftOnly →
      selectBranch (takeSnapshot m) (m.m_sample_rate / 10) ≠ Branch.rightOnly →
      m.m_buffer_left.samples
        = realLeftOf (selectBranch (takeSnapshot m) (m.m_sample_rate / 10), evs)
          ++ m1.m_buffer_left.samples ∧
      m.m_buffer_right.samples
        = realRightOf (selectBranch (takeSnapshot m) (m.m_sample_rate / 10), evs)
          ++ m1.m_buffer_right.samples ∧
      frameData evs
        = interleave
            (realLeftOf (selectBranch (takeSnapshot m) (m.m_sample_rate / 10), evs))
            (realRightOf (selectBranch (takeSnapshot m) (m.m_sample_rate / 10), evs)) ∧
      (realLeftOf (selectBranch (takeSnapshot m) (m.m_sample_rate / 10), evs)).length
        = (realRightOf (selectBranch (takeSnapshot m) (m.m_sample_rate / 10), evs)).length) := by
  have h0 := h
  rw [MixerIteration_eq] at h
  cases hb : selectBranch (takeSnapshot m) (m.m_sample_rate / 10) with
  | gap => exact absurd hb (selectBranch_ne_gap _ _ hlh hrh)
  | leftOnly =>
    rw [hb] at h
    simp only at h
    rcases outputLeftWithSilence_some _ _ _ h with hr | ⟨out, _, _, hr⟩ <;>
      simp only [Prod.mk.injEq] at hr <;> obtain ⟨e1, e2⟩ := hr <;> subst e1 e2
    · exact ⟨hlh, hrh, by simp, fun hne => absurd rfl hne⟩
    · exact ⟨hlh, hrh, by simp, fun hne => absurd rfl hne⟩
  | rightOnly =>
    rw [hb] at h
    simp only at h
    rcases outputRightWithSilence_some _ _ _ h with hr | ⟨out, _, _, hr⟩ <;>
      simp only [Prod.mk.injEq] at hr <;> obtain ⟨e1, e2⟩ := hr <;> subst e1 e2
    · exact ⟨hlh, hrh, by simp, fun _ hne => absurd rfl hne⟩
    · exact ⟨hlh, hrh, by simp, fun _ hne => absurd rfl hne⟩
  | both =>
    rw [hb] at h
    simp only at h
    rcases interleaveBoth_some_eq _ _ _ h with ⟨_, hr⟩ | ⟨hpos, hmax⟩
    · simp only [Prod.mk.injEq] at hr
      obtain ⟨e1, e2⟩ := hr
      subst e1 e2
      exact ⟨hlh, hrh, by simp, fun _ _ => by
        simp [realLeftOf, realRightOf, frameData, leftChannel, rightChannel, interleave]⟩
    · have he := interleaveBoth_eq timestamp m _ rfl hpos hmax
      rw [he] at h
      simp only [Option.some.injEq, Prod.mk.injEq] at h
      obtain ⟨e1, e2⟩ := h
      subst e1 e2
      have hl := toU32_le m.m_buffer_left.samples.length
      have hr := toU32_le m.m_buffer_right.samples.length
      have hlen : (m.m_buffer_left.samples.take
            (min (toU32 m.m_buffer_left.samples.length)
              (toU32 m.m_buffer_right.samples.length))).length
          = (m.m_buffer_right.samples.take
            (min (toU32 m.m_buffer_left.samples.length)
              (toU32 m.m_buffer_right.samples.length))).length := by
        simp only [List.length_take]; omega
      refine ⟨hlh, hrh, by simp, fun _ _ => ?_⟩
      simp only [realLeftOf, realRightOf, frameData, List.append_nil,
        leftChannel_interleave _ _ hlen, rightChannel_interleave _ _ hlen,
        List.take_append_drop]
      exact ⟨trivial, trivial, trivial, hlen⟩
  | idle =>
    rw [hb] at h
    simp only [Option.some.injEq, Prod.mk.injEq] at h
    obtain ⟨e1, e2⟩ := h
    subst e1 e2
    exact ⟨hlh, hrh, by simp, fun _ _ => by
      simp [realLeftOf, realRightOf, frameData, interleave]⟩

theorem sinkCall_left_gapFree (m0 : Mixer) (c r : Nat) (f : AVSampleFormat) (n : Nat)
    (d : Nat → Int) (t : Int) :
    (sinkCall m0 (Op.leftSamples c r f n d t)).m_buffer_left.samples
        = m0.m_buffer_left.samples ++ (if c ≠ 1 ∨ n = 0 then [] else readSamples d n) ∧
    (sinkCall m0 (Op.leftSamples c r f n d t)).m_buffer_left.hole = m0.m_buffer_left.hole ∧
    (sinkCall m0 (Op.leftSamples c r f n d t)).m_buffer_right = m0.m_buffer_right := by
  simp only [sinkCall, ChannelSink.ReadAudioSamples]
  split_ifs <;> simp

theorem sinkCall_right_gapFree (m0 : Mixer) (c r : Nat) (f : AVSampleFormat) (n : Nat)
    (d : Nat → Int) (t : Int) :
    (sinkCall m0 (Op.rightSamples c r f n d t)).m_buffer_right.samples
        = m0.m_buffer_right.samples ++ (if c ≠ 1 ∨ n = 0 then [] else readSamples d n) ∧
    (sinkCall m0 (Op.rightSamples c r f n d t)).m_buffer_right.hole = m0.m_buffer_right.hole ∧
    (sinkCall m0 (Op.rightSamples c r f n d t)).m_buffer_left = m0.m_buffer_left := by
  simp only [sinkCall, ChannelSink.ReadAudioSamples]
  split_ifs <;> simp

/-- Pairing over a run without hole notifications that starts with no hole
pending and returns. -/
theorem run_gapFree_some : ∀ (ops : List Op) (m0 m : Mixer)
    (tr : List (Branch × List AudioEvent)),
    m0.m_buffer_left.hole = false → m0.m_buffer_right.hole = false →
    (∀ op ∈ ops, op.gapFree = true) →
    run ops m0 = some (m, tr) →
    (∀ e ∈ events tr, e ≠ AudioEvent.PushAudioHole) ∧
    ((∀ r ∈ tr, r.1 ≠ Branch.leftOnly ∧ r.1 ≠ Branch.rightOnly) →
      m0.m_buffer_left.samples ++ pushedLeft ops = realLeft tr ++ m.m_buffer_left.samples ∧
      m0.m_buffer_right.samples ++ pushedRight ops = realRight tr ++ m.m_buffer_right.samples ∧
      frameData (events tr) = interleave (realLeft tr) (realRight tr) ∧
      (realLeft tr).length = (realRight tr).length)
  | [], m0, m, tr, _, _, _, hrun => by
    simp only [run, Option.some.injEq, Prod.mk.injEq] at hrun
    obtain ⟨e1, e2⟩ := hrun
    subst e1 e2
    simp [events, pushedLeft, pushedRight, realLeft, realRight, frameData, interleave]
  | Op.leftSamples c r f n d t :: ops, m0, m, tr, hlh, hrh, hgf, hrun => by
    obtain ⟨s1, s2, s3⟩ := sinkCall_left_gapFree m0 c r f n d t
    have ih := run_gapFree_some ops (sinkCall m0 (Op.leftSamples c r f n d t)) m tr
      (by rw [s2]; exact hlh) (by rw [s3]; exact hrh)
      (fun op h => hgf op (List.mem_cons_of_mem _ h)) (by simpa [run] using hrun)
    refine ⟨ih.1, fun hns => ?_⟩
    obtain ⟨h2, h3, h4, h5⟩ := ih.2 hns
    rw [s1] at h2
    rw [s3] at h3
    exact ⟨by rw [← h2]; simp [pushedLeft], by rw [← h3]; simp [pushedRight], h4, h5⟩
  | Op.rightSamples c r f n d t :: ops, m0, m, tr, hlh, hrh, hgf, hrun => by
    obtain ⟨s1, s2, s3⟩ := sinkCall_right_gapFree m0 c r f n d t
    have ih := run_gapFree_some ops (sinkCall m0 (Op.rightSamples c r f n d t)) m tr
      (by rw [s3]; exact hlh) (by rw [s2]; exact hrh)
      (fun op h => hgf op (List.mem_cons_of_mem _ h)) (by simpa [run] using hrun)
    refine ⟨ih.1, fun hns => ?_⟩
    obtain ⟨h2, h3, h4, h5⟩ := ih.2 hns
    rw [s3] at h2
    rw [s1] at h3
    exact ⟨by rw [← h2]; simp [pushedLeft], by rw [← h3]; simp [pushedRight], h4, h5⟩
  | Op.leftHole :: ops, m0, _, _, _, _, hgf, _ => by
    have := hgf Op.leftHole (List.mem_cons_self _ _)
    simp [Op.gapFree] at this
  | Op.rightHole :: ops, m0, _, _, _, _, hgf, _ => by
    have := hgf Op.rightHole (List.mem_cons_self _ _)
    simp [Op.gapFree] at this
  | Op.mix ts :: ops, m0, m, tr, hlh, hrh, hgf, hrun => by
    simp only [run, Option.bind_eq_bind, Option.bind_eq_some, Option.some.injEq,
      Prod.mk.injEq] at hrun
    obtain ⟨r, h1, rest, h2, e1, e2⟩ := hrun
    obtain ⟨p1, p2, p3, p4⟩ := MixerIteration_pairs ts m0 r.1 r.2 hlh hrh h1
    have ih := run_gapFree_some ops r.1 rest.1 rest.2 p1 p2
      (fun op h => hgf op (List.mem_cons_of_mem _ h)) h2
    subst e1 e2
    refine ⟨?_, fun hns => ?_⟩
    · intro e he
      simp only [events, List.mem_append] at he
      rcases he with he | he
      · exact p3 e he
      · exact ih.1 e he
    · obtain ⟨c1, c2, c3, c4⟩ := p4 (hns _ (List.mem_cons_self _ _)).1
        (hns _ (List.mem_cons_self _ _)).2
      obtain ⟨q1, q2, q3, q4⟩ := ih.2 (fun x hx => hns x (List.mem_cons_of_mem _ hx))
      simp only [pushedLeft, pushedRight, events, realLeft, realRight, frameData_append,
        List.length_append]
      refine ⟨?_, ?_, ?_, ?_⟩
      · rw [c1, List.append_assoc, q1, List.append_assoc]
      · rw [c2, List.append_assoc, q2, List.append_assoc]
      · rw [interleave_append _ _ _ _ c4, c3, q3]
      · rw [c4, q4]

/-- Conservation over a run without hole notifications that starts with no
hole pending, when every iteration finds fewer than 2^31 samples in each
buffer: the run returns, and each buffered or pushed sample is either sent out
or still buffered, in order. -/
theorem run_gapFree_bounded : ∀ (ops : List Op) (m0 : Mixer),
    m0.m_buffer_left.hole = false → m0.m_buffer_right.hole = false →
    (∀ op ∈ ops, op.gapFree = true) →
    boundedRun ops m0 = true →
    ∃ m tr, run ops m0 = some (m, tr) ∧
      m0.m_buffer_left.samples ++ pushedLeft ops = realLeft tr ++ m.m_buffer_left.samples ∧
      m0.m_buffer_right.samples ++ pushedRight ops = realRight tr ++ m.m_buffer_right.samples
  | [], m0, _, _, _, _ =>
    ⟨m0, [], rfl, by simp [pushedLeft, realLeft], by simp [pushedRight, realRight]⟩
  | Op.leftSamples c r f n d t :: ops, m0, hlh, hrh, hgf, hb => by
    obtain ⟨s1, s2, s3⟩ := sinkCall_left_gapFree m0 c r f n d t
    obtain ⟨m, tr, h1, h2, h3⟩ := run_gapFree_bounded ops
      (sinkCall m0 (Op.leftSamples c r f n d t))
      (by rw [s2]; exact hlh) (by rw [s3]; exact hrh)
      (fun op h => hgf op (List.mem_cons_of_mem _ h)) (by simpa [boundedRun] using hb)
    rw [s1] at h2
    rw [s3] at h3
    exact ⟨m, tr, by simpa [run] using h1, by rw [← h2]; simp [pushedLeft],
      by rw [← h3]; simp [pushedRight]⟩
  | Op.rightSamples c r f n d t :: ops, m0, hlh, hrh, hgf, hb => by
    obtain ⟨s1, s2, s3⟩ := sinkCall_right_gapFree m0 c r f n d t
    obtain ⟨m, tr, h1, h2, h3⟩ := run_gapFree_bounded ops
      (sinkCall m0 (Op.rightSamples c r f n d t))
      (by rw [s3]; exact hlh) (by rw [s2]; exact hrh)
      (fun op h => hgf op (List.mem_cons_of_mem _ h)) (by simpa [boundedRun] using hb)
    rw [s3] at h2
    rw [s1] at h3
    exact ⟨m, tr, by simpa [run] using h1, by rw [← h2]; simp [pushedLeft],
      by rw [← h3]; simp [pushedRight]⟩
  | Op.leftHole :: ops, m0, _, _, hgf, _ => by
    have := hgf Op.leftHole (List.mem_cons_self _ _)
    simp [Op.gapFree] at this
  | Op.rightHole :: ops, m0, _, _, hgf, _ => by
    have := hgf Op.rightHole (List.mem_cons_self _ _)
    simp [Op.gapFree] at this
  | Op.mix ts :: ops, m0, hlh, hrh, hgf, hb => by
    simp only [boundedRun, Bool.and_eq_true, decide_eq_true_eq] at hb
    obtain ⟨⟨bL, bR⟩, hrest⟩ := hb
    obtain ⟨m1, evs, e1, cl, cr, hlh1, hrh1, _, _⟩ :=
      MixerIteration_conserves ts m0 hlh hrh bL bR
    rw [e1] at hrest
    obtain ⟨m, tr, h1, h2, h3⟩ := run_gapFree_bounded ops m1 hlh1 hrh1
      (fun op h => hgf op (List.mem_cons_of_mem _ h)) hrest
    refine ⟨m, (selectBranch (takeSnapshot m0) (m0.m_sample_rate / 10), evs) :: tr, ?_, ?_, ?_⟩
    · simp [run, e1, h1]
    · simp only [pushedLeft, realLeft]
      rw [cl, List.append_assoc, h2, List.append_assoc]
    · simp only [pushedRight, realRight]
      rw [cr, List.append_assoc, h3, List.append_assoc]

/-! ## Interleave correctness over a run -/

/-- C3 (amended): take any run of sample deliveries and mixer iterations with
no hole notification, started with no hole pending (in particular once both
sides have started); let `a` be the left samples (buffered at the start, then
delivered) and `b` the right ones.  Whenever the run returns, it has made no
`PushAudioHole` call; and if none of its iterations took a silence block (none
found one buffer empty while the other held more than `silence_threshold`
samples), then for some `k` the frames emitted, concatenated, are
`[a0, b0, ..., a(k-1), b(k-1)]` and the buffers hold the rest of `a` and of
`b`; so once both buffers are empty the frames are exactly
`[(a0, b0), ..., (an, bn)]`.  And the run does return whenever every iteration
finds fewer than 2^31 samples in each buffer. -/
theorem C3_interleave_run (ops : List Op) (m0 : Mixer)
    (hlh : m0.m_buffer_left.hole = false) (hrh : m0.m_buffer_right.hole = false)
    (hgf : ∀ op ∈ ops, op.gapFree = true) :
    (∀ m tr, run ops m0 = some (m, tr) →
      (∀ e ∈ events tr, e ≠ AudioEvent.PushAudioHole) ∧
      ((∀ r ∈ tr, r.1 ≠ Branch.leftOnly ∧ r.1 ≠ Branch.rightOnly) →
        ∃ k,
          frameData (events tr)
            = interleave ((m0.m_buffer_left.samples ++ pushedLeft ops).take k)
                ((m0.m_buffer_right.samples ++ pushedRight ops).take k) ∧
          m.m_buffer_left.samples = (m0.m_buffer_left.samples ++ pushedLeft ops).drop k ∧
          m.m_buffer_right.samples = (m0.m_buffer_right.samples ++ pushedRight ops).drop k ∧
          (m.m_buffer_left.samples = [] → m.m_buffer_right.samples = [] →
            frameData (events tr)
              = interleave (m0.m_buffer_left.samples ++ pushedLeft ops)
                  (m0.m_buffer_right.samples ++ pushedRight ops)))) ∧
    (boundedRun ops m0 = true → ∃ m tr, run ops m0 = some (m, tr)) := by
  constructor
  · intro m tr hrun
    obtain ⟨h5, h4⟩ := run_gapFree_some ops m0 m tr hlh hrh hgf hrun
    refine ⟨h5, fun hns => ?_⟩
    obtain ⟨h2, h3, p1, p2⟩ := h4 hns
    refine ⟨(realLeft tr).length, ?_, ?_, ?_, ?_⟩
    · rw [h2, h3, List.take_left, p2, List.take_left, p1]
    · rw [h2, List.drop_left]
    · rw [h3, p2, List.drop_left]
    · intro e1 e2
      rw [h2, h3, e1, e2, List.append_nil, List.append_nil, p1]
  · intro hb
    obtain ⟨m, tr, h1, _⟩ := run_gapFree_bounded ops m0 hlh hrh hgf hb
    exact ⟨m, tr, h1⟩

/-- Witness of C3: the left sink receives 1, 2, 3 and the right sink 10, 11
and later 12; every iteration finds fewer than 2^31 samples, none takes a
silence block, and the two frames are `[1, 10, 2, 11]` and `[3, 12]`. -/
theorem C3_interleave_run_witness :
    run pairedRun (Mixer.mk0 48000 [] true [] true)
      = some ({ Mixer.mk0 48000 [] true [] true with output := [3, 12] },
          [(Branch.both, [AudioEvent.PushAudioSamples 2 48000 AVSampleFormat.AV_SAMPLE_FMT_S16
              2 [1, 10, 2, 11] 5]),
           (Branch.both, [AudioEvent.PushAudioSamples 2 48000 AVSampleFormat.AV_SAMPLE_FMT_S16
              1 [3, 12] 6])]) ∧
    pushedLeft pairedRun = [1, 2, 3] ∧ pushedRight pairedRun = [10, 11, 12] ∧
    boundedRun pairedRun (Mixer.mk0 48000 [] true [] true) = true ∧
    (∀ m tr, run pairedRun (Mixer.mk0 48000 [] true [] true) = some (m, tr) →
      (∀ e ∈ events tr, e ≠ AudioEvent.PushAudioHole) ∧
      ((∀ r ∈ tr, r.1 ≠ Branch.leftOnly ∧ r.1 ≠ Branch.rightOnly) →
        ∃ k,
          frameData (events tr)
            = interleave (([] ++ pushedLeft pairedRun).take k)
                (([] ++ pushedRight pairedRun).take k) ∧
          m.m_buffer_left.samples = ([] ++ pushedLeft pairedRun).drop k ∧
          m.m_buffer_right.samples = ([] ++ pushedRight pairedRun).drop k ∧
          (m.m_buffer_left.samples = [] → m.m_buffer_right.samples = [] →
            frameData (events tr)
              = interleave ([] ++ pushedLeft pairedRun) ([] ++ pushedRight pairedRun)))) ∧
    (boundedRun pairedRun (Mixer.mk0 48000 [] true [] true) = true →
      ∃ m tr, run pairedRun (Mixer.mk0 48000 [] true [] true) = some (m, tr)) :=
  ⟨by decide, by decide, by decide, by decide,
   C3_interleave_run pairedRun (Mixer.mk0 48000 [] true [] true) rfl rfl (by decide)⟩

/-- Counterexample to C3 as stated: at 48 kHz both sides have started with
empty buffers; 4801 samples (all 1) reach the left sink and an iteration runs,
then 4801 samples (all 2) reach the right sink and an iteration runs.  Both
buffers end empty, yet the run has emitted a frame of 4801 pairs `(1, 0)` and a
frame of 4801 pairs `(0, 2)`: 19204 samples, not the 9602 of the pairs
`(1, 2)`. -/
theorem C3_counterexample :
    (Mixer.mk0 48000 [] true [] true).m_buffer_left.started = true ∧
    (Mixer.mk0 48000 [] true [] true).m_buffer_right.started = true ∧
    (∀ op ∈ starvedRun, op.gapFree = true) ∧
    (pushedLeft starvedRun).length = 4801 ∧ (pushedRight starvedRun).length = 4801 ∧
    ∃ m tr, run starvedRun (Mixer.mk0 48000 [] true [] true) = some (m, tr) ∧
      tr = [(Branch.leftOnly,
              [AudioEvent.PushAudioSamples 2 48000 AVSampleFormat.AV_SAMPLE_FMT_S16 4801
                (interleave (readSamples (fun _ => 1) 4801) (List.replicate 4801 0)) 0]),
            (Branch.rightOnly,
              [AudioEvent.PushAudioSamples 2 48000 AVSampleFormat.AV_SAMPLE_FMT_S16 4801
                (interleave (List.replicate 4801 0) (readSamples (fun _ => 2) 4801)) 0])] ∧
      m.m_buffer_left.samples = [] ∧ m.m_buffer_right.samples = [] ∧
      (frameData (events tr)).length = 19204 ∧
      frameData (events tr)
        ≠ interleave ([] ++ pushedLeft starvedRun) ([] ++ pushedRight starvedRun) := by
  have hpl : (pushedLeft starvedRun).length = 4801 := by
    simp [starvedRun, pushedLeft, length_readSamples]
  have hpr : (pushedRight starvedRun).length = 4801 := by
    simp [starvedRun, pushedRight, length_readSamples]
  refine ⟨rfl, rfl, ?_, hpl, hpr, ?_⟩
  · intro op hop
    simp only [starvedRun, List.mem_cons, List.mem_singleton, List.not_mem_nil, or_false] at hop
    rcases hop with h | h | h | h <;> rw [h] <;> rfl
  · have hrun := run_starved 48000 4801 (fun _ => 1) (fun _ => 2) 0 0 (by decide) (by decide)
    have hlen := length_frameData_starved 48000 4801 (fun _ => 1) (fun _ => 2) 0 0
    refine ⟨_, _, hrun, rfl, rfl, rfl, hlen, ?_⟩
    intro h
    rw [h, List.nil_append, List.nil_append, length_interleave, hpl, hpr] at hlen
    exact absurd hlen (by decide)

/-! ## Per-channel FIFO conservation -/

/-- C9 (amended): take a mixer with no hole pending and a run of sample
deliveries and mixer iterations with no hole notification in which every
iteration finds fewer than 2^31 samples in each buffer.  One iteration from
buffers of fewer than 2^31 samples returns and leaves the left buffer before it
equal to the left-buffer samples it sends out (the left channel of its frame,
nothing for a right-with-silence frame or no frame) followed by the left buffer
after it, and likewise on the right.  The whole run returns, and the samples of
a channel sent out, followed by the remaining buffer, are exactly the samples
that were buffered or pushed to that channel, in push order. -/
theorem C9_fifo_conservation (ops : List Op) (m0 : Mixer)
    (hlh : m0.m_buffer_left.hole = false) (hrh : m0.m_buffer_right.hole = false)
    (hgf : ∀ op ∈ ops, op.gapFree = true)
    (hb : boundedRun ops m0 = true) :
    (∀ timestamp, m0.m_buffer_left.samples.length < 2147483648 →
      m0.m_buffer_right.samples.length < 2147483648 →
      ∃ m1 evs, MixerIteration timestamp m0 = some (m1, evs) ∧
        m0.m_buffer_left.samples
          = realLeftOf (selectBranch (takeSnapshot m0) (m0.m_sample_rate / 10), evs)
            ++ m1.m_buffer_left.samples ∧
        m0.m_buffer_right.samples
          = realRightOf (selectBranch (takeSnapshot m0) (m0.m_sample_rate / 10), evs)
            ++ m1.m_buffer_right.samples) ∧
    (∃ m tr, run ops m0 = some (m, tr) ∧
      m0.m_buffer_left.samples ++ pushedLeft ops = realLeft tr ++ m.m_buffer_left.samples ∧
      m0.m_buffer_right.samples ++ pushedRight ops
        = realRight tr ++ m.m_buffer_right.samples) := by
  constructor
  · intro timestamp hL hR
    obtain ⟨m1, evs, h1, h2, h3, _⟩ := MixerIteration_conserves timestamp m0 hlh hrh hL hR
    exact ⟨m1, evs, h1, h2, h3⟩
  · exact run_gapFree_bounded ops m0 hlh hrh hgf hb

/-- Witness of C9: the run of the witness of C3, and the iteration with a
left-with-silence frame at 30 Hz. -/
theorem C9_fifo_conservation_witness :
    (∃ m tr, run pairedRun (Mixer.mk0 48000 [] true [] true) = some (m, tr) ∧
      [] ++ pushedLeft pairedRun = realLeft tr ++ m.m_buffer_left.samples ∧
      [] ++ pushedRight pairedRun = realRight tr ++ m.m_buffer_right.samples) ∧
    (∃ m1 evs,
      MixerIteration 7 (Mixer.mk0 30 [1, 2, 3, 4] true [] true) = some (m1, evs) ∧
      [1, 2, 3, 4]
        = realLeftOf (selectBranch (takeSnapshot (Mixer.mk0 30 [1, 2, 3, 4] true [] true))
            (30 / 10), evs) ++ m1.m_buffer_left.samples ∧
      []
        = realRightOf (selectBranch (takeSnapshot (Mixer.mk0 30 [1, 2, 3, 4] true [] true))
            (30 / 10), evs) ++ m1.m_buffer_right.samples) :=
  ⟨(C9_fifo_conservation pairedRun (Mixer.mk0 48000 [] true [] true) rfl rfl (by decide)
      (by decide)).2,
   (C9_fifo_conservation [] (Mixer.mk0 30 [1, 2, 3, 4] true [] true) rfl rfl (by decide)
      (by decide)).1 7 (by decide) (by decide)⟩

/-- Counterexample to C9 as stated: only the left side has started and its
buffer holds 2^32 + 4801 samples; the iteration sends out 4801 of them and
empties the buffer, so the buffer before is longer than what was sent out
followed by the buffer after. -/
theorem C9_counterexample :
    overlongWarmup.m_buffer_left.hole = false ∧ overlongWarmup.m_buffer_right.hole = false ∧
    ∃ m1 evs, MixerIteration 0 overlongWarmup = some (m1, evs) ∧
      (realLeftOf (selectBranch (takeSnapshot overlongWarmup)
          (overlongWarmup.m_sample_rate / 10), evs)).length = 4801 ∧
      m1.m_buffer_left.samples = [] ∧
      overlongWarmup.m_buffer_left.samples.length = 4294972097 ∧
      overlongWarmup.m_buffer_left.samples
        ≠ realLeftOf (selectBranch (takeSnapshot overlongWarmup)
            (overlongWarmup.m_sample_rate / 10), evs) ++ m1.m_buffer_left.samples := by
  have hL : overlongWarmup.m_buffer_left.samples.length = 4294972097 :=
    List.length_replicate _ _
  have hk : toU32 overlongWarmup.m_buffer_left.samples.length = 4801 := by rw [hL]; rfl
  have hlh : overlongWarmup.m_buffer_left.hole = false := rfl
  have hrh : overlongWarmup.m_buffer_right.hole = false := rfl
  have hls : overlongWarmup.m_buffer_left.started = true := rfl
  have hrs : overlongWarmup.m_buffer_right.started = false := rfl
  have hrate : overlongWarmup.m_sample_rate = 48000 := rfl
  have hb : selectBranch (takeSnapshot overlongWarmup) (overlongWarmup.m_sample_rate / 10)
      = Branch.leftOnly := by
    simp [selectBranch, takeSnapshot, hk, hlh, hrh, hls, hrs, hrate]
  have hreal : (realLeftOf (Branch.leftOnly,
      [AudioEvent.PushAudioSamples 2 overlongWarmup.m_sample_rate
        AVSampleFormat.AV_SAMPLE_FMT_S16 4801
        (interleave (overlongWarmup.m_buffer_left.samples.take 4801) (List.replicate 4801 0))
        0])).length = 4801 := by
    simp only [realLeftOf, frameData, List.append_nil]
    rw [leftChannel_interleave _ _ (by rw [List.length_take, hL, List.length_replicate]; rfl),
      List.length_take, hL]
    rfl
  refine ⟨rfl, rfl, _, _,
    MixerIteration_leftOnly_count 0 overlongWarmup 4801 hk hb (by decide) (by decide), ?_, rfl,
    hL, ?_⟩
  · rw [hb]; exact hreal
  · rw [hb]
    intro h
    have hlen := congrArg List.length h
    rw [List.length_append, hreal, hL] at hlen
    exact absurd hlen (by decide)

end DualSourceMixer
